import Mathlib

/-!
Verification of the `dlta-scaffold` code generator
(`internal/tools/dlta-scaffold/main.go`).

The program reflects over terraform provider schema definitions and emits
scaffolding artifacts: a JSON property summary, terraform HCL template,
module, variable, local and output blocks, and a SQL script for a visual
design palette.  Everything below is a shallow embedding of that Go file:

* `schema.Schema` maps become association lists `List (String × SchemaS)`;
  the `Elem` field (which in Go holds either nothing, a `*schema.Resource`
  or a `*schema.Schema`) becomes the inductive `SElem`.
* The internal `attribute`, `summaryAttribute`, `PaletteProp`, `Creator`,
  `KeyValue` and `namingStruct` structs are copied field by field.
* Go `interface` values that end up JSON-serialised are modelled by the
  small JSON value type `J`; `encoding/json.MarshalIndent(v, "", "  ")` is
  modelled by `renderJ`.
* File-system effects are modelled by an explicit state `FSState` (a map
  from paths to contents plus a print log and a ghost trace of attempted
  artifact writes) together with an environment `FSEnv` that says which
  `os.MkdirAll` / `os.Create` calls fail.
* `uuid.New().String()` in `dltaPalletteCodeBlock` is modelled by an extra
  argument `u : String`, the value drawn by the run.
* Go map iteration order is randomised at runtime; the embedding's
  association lists fix one representative order per map.  Statements about
  which entries are emitted, looked up or attempted are insensitive to this
  choice; the character-for-character content of the emitted text is not,
  and the determinism claim (C10) therefore treats the iteration order of a
  ranged map as an explicit input (any permutation of the entry list) and
  exhibits its effect on the artifacts.

Braces and single quotes inside string literals are written with the
escapes `\x7b`, `\x7d` and `\x27`.
-/

set_option maxHeartbeats 1000000
set_option maxRecDepth 10000

namespace DltaScaffold

/-- `type KeyValue struct` from the source (json keys `key`, `value`). -/
structure KeyValue where
  Key : String
  Value : String
deriving Repr, DecidableEq

/-- Minimal JSON value type: the dynamic (`interface`) values that the Go
program hands to `encoding/json` are embedded into `J`.  A `nil` slice or
`nil` map marshals as `null`; Go `0.0` marshals as `0` and is embedded as
`J.int 0`. -/
inductive J where
  | null : J
  | str (s : String) : J
  | bool (b : Bool) : J
  | int (n : Int) : J
  | arr (xs : List J) : J
  | obj (fields : List (String × J)) : J
deriving Repr

/-- `type PaletteProp struct` from the source.  `Description`, `FlattenName`
and `Filter` are `*string` (so `Option String`); `CurrentValue` is
`interface` (so `J`); `Validators` is `NameValue = map[string]interface`
whose zero value is a `nil` map (so `Option (List (String × J))`);
`Options` is a slice whose zero value is `nil` (modelled as `[]`, which
marshals as `null` exactly like Go's nil slice, since the program only ever
appends at least one element when it touches the field). -/
structure PaletteProp where
  ID : String := ""
  Name : String := ""
  Description : Option String := none
  -- the Go field is named `Type`, a keyword in Lean
  Type_ : String := ""
  CurrentValue : J := J.null
  FlattenName : Option String := none
  Filter : Option String := none
  Disabled : Bool := false
  ReadOnly : Bool := false
  Validators : Option (List (String × J)) := none
  Options : List KeyValue := []
deriving Repr

/-- `type Creator struct` from the source (json keys `create_function`,
`controls`). -/
structure Creator where
  CreateFunction : String := ""
  Props : List PaletteProp := []
deriving Repr

/-- `type namingStruct struct` from the source. -/
structure namingStruct where
  Delimiter : String := ""
  StaticName : String := ""
  IsDataSource : Bool := false
  Prefix_ : String := ""
  Fields : List String := []

/-- The scalar fields of the internal `attribute` struct (its recursive
`Attributes` field is split off into the inductive `Attribute`). -/
structure AttrCore where
  Description : String := ""
  IsBlock : Bool := false
  MaxItems : Nat := 0
  MinItems : Nat := 0
  Required : Bool := false
  Optional : Bool := false
  Computed : Bool := false
  ForceNew : Bool := false
  PossibleValues : List String := []
  PossibleOptions : List String := []
  DataTypeString : String := ""
  Default : String := ""
  ConflictsWith : List String := []
  ResourcePath : String := ""
deriving Repr, DecidableEq

/-- `type attribute struct` from the source: scalar fields plus the
recursive `Attributes map[string]attribute`, modelled as an association
list. -/
inductive Attribute where
  | mk (core : AttrCore) (attrs : List (String × Attribute)) : Attribute
deriving Repr

def Attribute.core : Attribute → AttrCore
  | .mk c _ => c

def Attribute.Attributes : Attribute → List (String × Attribute)
  | .mk _ a => a

def Attribute.IsBlock (a : Attribute) : Bool := a.core.IsBlock
def Attribute.Required (a : Attribute) : Bool := a.core.Required
def Attribute.Optional (a : Attribute) : Bool := a.core.Optional
def Attribute.Computed (a : Attribute) : Bool := a.core.Computed
def Attribute.DataTypeString (a : Attribute) : String := a.core.DataTypeString
def Attribute.Description (a : Attribute) : String := a.core.Description
def Attribute.Default (a : Attribute) : String := a.core.Default
def Attribute.ResourcePath (a : Attribute) : String := a.core.ResourcePath
def Attribute.PossibleValues (a : Attribute) : List String := a.core.PossibleValues
def Attribute.PossibleOptions (a : Attribute) : List String := a.core.PossibleOptions

/-- `type summaryAttribute struct` from the source. -/
structure SummaryAttribute where
  Published : Bool := false
  IsBlock : Bool := false
  Required : Bool := false
  Optional : Bool := false
  Computed : Bool := false
  DependentResourcePath : String := ""
deriving Repr, DecidableEq

/-- The scalar fields of `schema.Schema` that the generator reads.
`ValidatePossibleValues` stands for the string list that
`getSchemaPossibleValues` recovers from a `StringInSlice` `ValidateFunc`
(empty when the validator is absent or of another shape). -/
structure SchemaCore where
  Description : String := ""
  TypeString : String := "TypeString"
  Required : Bool := false
  Optional : Bool := false
  Computed : Bool := false
  ForceNew : Bool := false
  MaxItems : Nat := 0
  MinItems : Nat := 0
  ConflictsWith : List String := []
  ValidatePossibleValues : List String := []
deriving Repr, DecidableEq

mutual
/-- `schema.Schema`: scalar fields plus the `Elem` field. -/
inductive SchemaS where
  | mk (core : SchemaCore) (elem : SElem) : SchemaS

/-- The `Elem` field of `schema.Schema`: `nil`, a `*schema.Resource`
(carrying its `Schema` map) or a `*schema.Schema` (of which the generator
only reads the possible values recovered from its `ValidateFunc`). -/
inductive SElem where
  | noElem : SElem
  | resourceElem (children : List (String × SchemaS)) : SElem
  | schemaElem (vals : List String) : SElem
end

def SchemaS.core : SchemaS → SchemaCore
  | .mk c _ => c

def SchemaS.elem : SchemaS → SElem
  | .mk _ e => e

def SchemaS.Required (s : SchemaS) : Bool := s.core.Required
def SchemaS.Optional (s : SchemaS) : Bool := s.core.Optional
def SchemaS.Computed (s : SchemaS) : Bool := s.core.Computed

/-- `func isBlock`: the element is a block iff its `Elem` is a
`*schema.Resource`. -/
def isBlock : SchemaS → Bool
  | .mk _ (.resourceElem _) => true
  | _ => false

/-- Children of a block (`input[fieldName].Elem.(*schema.Resource).Schema`);
empty for non-blocks. -/
def SchemaS.children : SchemaS → List (String × SchemaS)
  | .mk _ (.resourceElem ch) => ch
  | _ => []

/-- `type Artefact int64` and its constants from the source. -/
inductive Artefact where
  | PublishedPropertiesSummary
  | TerraformTemplate
  | ModuleBlock
  | VariableBlock
  | LocalBlock
  | OutputBlock
  | PalletteBlock
deriving Repr, DecidableEq

/-- `type documentationGenerator struct` from the source.  `resource` is
the resolved schema map (`nil` when unresolved); `savedSummary` models the
parsed contents of the `<name>.json` summary file that
`readResourceProperties` reads back from disk. -/
structure Gen where
  resourceName : String := ""
  isDataSource : Bool := false
  dltaPath : String := ""
  isResource : Bool := true
  isForced : Bool := false
  ShortCode : String := ""
  NamingConvention : String := ""
  resource : Option (List (String × SchemaS)) := none
  savedSummary : List (String × SummaryAttribute) := []

/-! ### Small pure helpers from the source

The Lean core versions of `splitOn`, `mergeSort`, `trim`, `contains` and
the `String` order are defined by well-founded recursion or iterators and
do not reduce inside the kernel, so the embedding uses its own
structurally recursive equivalents (all splits in the program are on the
single characters `_` and `.`; the names sorted are ASCII, for which
byte-wise order, UTF-8 order and codepoint order agree). -/

/-- Byte-wise (here: codepoint-wise) lexicographic order on strings, the
order used by Go's `sort.Strings`. -/
def strLeB (s t : String) : Bool :=
  let rec go : List Char → List Char → Bool
    | [], _ => true
    | _ :: _, [] => false
    | a :: as, b :: bs =>
      if a.toNat < b.toNat then true
      else if b.toNat < a.toNat then false
      else go as bs
  go s.data t.data

/-- Insert into a sorted list (ascending by `le`). -/
def insertB (le : α → α → Bool) (x : α) : List α → List α
  | [] => [x]
  | y :: ys => if le x y then x :: y :: ys else y :: insertB le x ys

/-- Insertion sort: ascending by `le`, the result of Go's `sort.Strings`
(entries are unique, so ties cannot occur). -/
def insSortB (le : α → α → Bool) : List α → List α
  | [] => []
  | x :: xs => insertB le x (insSortB le xs)

/-- `strings.Split s (String.singleton c)` (every split in the program is
on a single character). -/
def splitChar (c : Char) : List Char → List (List Char)
  | [] => [[]]
  | x :: xs =>
    if x = c then [] :: splitChar c xs
    else
      match splitChar c xs with
      | [] => [[x]]
      | y :: ys => (x :: y) :: ys

/-- `strings.Split` on a single-character separator. -/
def mySplitOn (s : String) (c : Char) : List String :=
  (splitChar c s.data).map String.mk

/-- Does `p` occur as a prefix of `l`? -/
def isPrefixL : List Char → List Char → Bool
  | [], _ => true
  | _ :: _, [] => false
  | a :: as, b :: bs => a == b && isPrefixL as bs

/-- Does `p` occur somewhere in `l`? -/
def containsL (p : List Char) : List Char → Bool
  | [] => isPrefixL p []
  | x :: t => isPrefixL p (x :: t) || containsL p t

/-- `strings.Contains s sub` for the constant substrings used by the
program (`sub` is never empty there). -/
def containsSub (s sub : String) : Bool := containsL sub.data s.data

/-- `strings.TrimSpace` (the characters relevant to the generated JSON;
the generated content starts with `\x7b` and ends with `\x7d`, so the trim
is the identity there). -/
def isSpaceChar (c : Char) : Bool := c = ' ' || c = '\t' || c = '\n' || c = '\r'

def myTrim (s : String) : String :=
  String.mk (((s.data.dropWhile isSpaceChar).reverse.dropWhile isSpaceChar).reverse)

/-- `func translateDataType`. -/
def translateDataType (terraType : String) : String :=
  if terraType = "TypeString" then "string"
  else if terraType = "TypeBool" then "bool"
  else if terraType = "TypeInt" then "number"
  else if terraType = "TypeFloat" then "number"
  else if terraType = "TypeList" then "list"
  else if terraType = "TypeMap" then "map"
  else "property undefiend"

/-- `func convertNameToLabel`: splits on `_`, drops the element `dlta`,
title-cases each remaining element, separated by spaces (the separator is
appended to every non-final, non-dropped element, as in the source). -/
def convertNameToLabel (name : String) : String :=
  let nameElements := mySplitOn name '_'
  let n := nameElements.length
  String.join <| (nameElements.enum.map fun iv =>
    if iv.2 = "dlta" then ""
    else iv.2.capitalize ++ (if iv.1 < n - 1 then " " else ""))

/-- `func genVariableNameFromResourcePath`: replaces every `.` in the
resource path by `_`. -/
def genVariableNameFromResourcePath (rp : String) : String :=
  let parts := mySplitOn rp '.'
  let n := parts.length
  String.join <| (parts.enum.map fun iv =>
    iv.2 ++ (if iv.1 < n - 1 then "_" else ""))

/-- `func getResourceShortCode`.  `v[0:1]` on an empty segment panics in
Go (index out of range); the panic is modelled by `none`.  The variable
`parts` is the byte length of the whole name (not the segment count), as
in the source. -/
def getResourceShortCode (resourceName : String) : Option String :=
  let resourceNames := mySplitOn resourceName '_'
  let parts := resourceName.length
  resourceNames.enum.foldl
    (fun acc iv =>
      match acc with
      | none => none
      | some s =>
        if parts == 1 && iv.1 == 0 then some s
        else if iv.2.isEmpty then none
        else some (s ++ iv.2.take 1))
    (some "")

/-- `getResourceShortCode` with the Go panic collapsed to `""`; used
where the surrounding code calls it on block names that are nonempty in
every run the claims quantify over (`terraformLocalBlock`). -/
def getResourceShortCodeD (resourceName : String) : String :=
  (getResourceShortCode resourceName).getD ""

/-- `func initiaiseAttribute`.  For `TypeString` the source returns
`writeJson("")`, i.e. the two-character string consisting of two double
quotes; for `TypeList` it returns `[]string\x7b""\x7d`; for `TypeMap` a nil
map (marshals as `null`); `0.0` marshals as `0`. -/
def initiaiseAttribute (terraType : String) : J :=
  if terraType = "TypeString" then J.str "\x22\x22"
  else if terraType = "TypeBool" then J.bool false
  else if terraType = "TypeInt" then J.int 0
  else if terraType = "TypeFloat" then J.int 0
  else if terraType = "TypeList" then J.arr [J.str ""]
  else if terraType = "TypeMap" then J.null
  else J.null

/-- `func (gen) sortFields`: the field names of the map, sorted. -/
def sortFields (input : List (String × SchemaS)) : List String :=
  insSortB strLeB (input.map Prod.fst)

/-! ### `encoding/json.MarshalIndent(v, "", "  ")`, as used by `writeJson` -/

def hexDigitChar (n : Nat) : Char :=
  if n = 0 then '0' else if n = 1 then '1' else if n = 2 then '2'
  else if n = 3 then '3' else if n = 4 then '4' else if n = 5 then '5'
  else if n = 6 then '6' else if n = 7 then '7' else if n = 8 then '8'
  else if n = 9 then '9' else if n = 10 then 'a' else if n = 11 then 'b'
  else if n = 12 then 'c' else if n = 13 then 'd' else if n = 14 then 'e'
  else 'f'

/-- Go `encoding/json` string escaping (with the default HTML escaping of
`<`, `>`, `&`). -/
def jEscapeChar (c : Char) : String :=
  if c = '\x22' then "\x5c\x22"
  else if c = '\x5c' then "\x5c\x5c"
  else if c = '\n' then "\x5cn"
  else if c = '\r' then "\x5cr"
  else if c = '\t' then "\x5ct"
  else if c = '<' then "\x5cu003c"
  else if c = '>' then "\x5cu003e"
  else if c = '&' then "\x5cu0026"
  else if c.toNat < 32 then
    "\x5cu00" ++ String.singleton (hexDigitChar (c.toNat / 16)) ++
      String.singleton (hexDigitChar (c.toNat % 16))
  else String.singleton c

def jEscape (s : String) : String := String.join (s.data.map jEscapeChar)

def jQuote (s : String) : String := "\x22" ++ jEscape s ++ "\x22"

def indentN : Nat → String
  | 0 => ""
  | n + 1 => "  " ++ indentN n

mutual
/-- `MarshalIndent` rendering of a JSON value at nesting level `lvl`. -/
def renderJ : J → Nat → String
  | .null, _ => "null"
  | .str s, _ => jQuote s
  | .bool b, _ => if b then "true" else "false"
  | .int n, _ => toString n
  | .arr [], _ => "[]"
  | .arr (x :: xs), lvl =>
    "[\n" ++ renderItems (x :: xs) (lvl + 1) ++ "\n" ++ indentN lvl ++ "]"
  | .obj [], _ => "\x7b\x7d"
  | .obj (f :: fs), lvl =>
    "\x7b\n" ++ renderFields (f :: fs) (lvl + 1) ++ "\n" ++ indentN lvl ++ "\x7d"

def renderItems : List J → Nat → String
  | [], _ => ""
  | [x], lvl => indentN lvl ++ renderJ x lvl
  | x :: y :: rest, lvl =>
    indentN lvl ++ renderJ x lvl ++ ",\n" ++ renderItems (y :: rest) lvl

def renderFields : List (String × J) → Nat → String
  | [], _ => ""
  | [(k, v)], lvl => indentN lvl ++ jQuote k ++ ": " ++ renderJ v lvl
  | (k, v) :: f :: rest, lvl =>
    indentN lvl ++ jQuote k ++ ": " ++ renderJ v lvl ++ ",\n" ++
      renderFields (f :: rest) lvl
end

/-- Go marshals maps with their keys sorted. -/
def sortByKey (l : List (String × J)) : List (String × J) :=
  insSortB (fun a b => strLeB a.1 b.1) l

/-- JSON encoding of a `PaletteProp` (fields in source declaration order,
with the json tags of the struct).  A `nil` pointer, `nil` map, or `nil`
slice marshals as `null`. -/
def propJ (p : PaletteProp) : J :=
  J.obj
    [ ("id", J.str p.ID)
    , ("name", J.str p.Name)
    , ("description", match p.Description with | none => J.null | some d => J.str d)
    , ("type", J.str p.Type_)
    , ("value", p.CurrentValue)
    , ("flatten_name", match p.FlattenName with | none => J.null | some f => J.str f)
    , ("filter", match p.Filter with | none => J.null | some f => J.str f)
    , ("disabled", J.bool p.Disabled)
    , ("readonly", J.bool p.ReadOnly)
    , ("validators", match p.Validators with | none => J.null | some kvs => J.obj (sortByKey kvs))
    , ("options", match p.Options with
        | [] => J.null
        | os => J.arr (os.map fun kv => J.obj [("key", J.str kv.Key), ("value", J.str kv.Value)]))
    ]

/-- JSON encoding of a `Creator` value. -/
def creatorJ (c : Creator) : J :=
  J.obj
    [ ("create_function", J.str c.CreateFunction)
    , ("controls", match c.Props with
        | [] => J.null
        | ps => J.arr (ps.map propJ))
    ]

/-- `writeJson` applied to the `creation` value of `dltaPalletteCodeBlock`. -/
def writeJsonCreator (c : Creator) : String := renderJ (creatorJ c) 0

/-- JSON encoding of a `map[string]summaryAttribute` (keys sorted; the
struct has no json tags, so Go uses the field names). -/
def summaryJ (m : List (String × SummaryAttribute)) : J :=
  J.obj (sortByKey (m.map fun p =>
    (p.1, J.obj
      [ ("Published", J.bool p.2.Published)
      , ("IsBlock", J.bool p.2.IsBlock)
      , ("Required", J.bool p.2.Required)
      , ("Optional", J.bool p.2.Optional)
      , ("Computed", J.bool p.2.Computed)
      , ("DependentResourcePath", J.str p.2.DependentResourcePath)
      ])))

/-- `writeJson` applied to the summary map of `writeInitResourceProperties`. -/
def writeJsonSummary (m : List (String × SummaryAttribute)) : String :=
  renderJ (summaryJ m) 0

/-! ### The schema walk: `getAllInputAttributes` and friends -/

/-- `func cloneSchemaToAttributes` (the fields it copies; `PossibleValues`
and `Default` are left at their zero values, as in the source where those
assignments are commented out). -/
def cloneCore (c : SchemaCore) (isB : Bool) (parentPath fieldName : String) : AttrCore :=
  { Description := c.Description
    IsBlock := isB
    MaxItems := c.MaxItems
    MinItems := c.MinItems
    Required := c.Required
    Optional := c.Optional
    Computed := c.Computed
    ForceNew := c.ForceNew
    DataTypeString := c.TypeString
    ConflictsWith := c.ConflictsWith
    ResourcePath := parentPath ++ "." ++ fieldName }

mutual
/-- The body of the `getAllInputAttributes` loop for a single field: a
block recurses into its children; a leaf collects the possible values of
its own `ValidateFunc` and, when `Elem` is a `*schema.Schema`, of the
element's `ValidateFunc` (`getSchemaPossibleValues` at both call sites). -/
def buildAttr (parentPath fieldName : String) : SchemaS → Attribute
  | .mk c (.resourceElem ch) =>
    .mk (cloneCore c true parentPath fieldName)
      (insSortB (fun a b => strLeB a.1 b.1)
        (getAllInputAttributesU ch (parentPath ++ "." ++ fieldName)))
  | .mk c .noElem =>
    .mk { cloneCore c false parentPath fieldName with
          PossibleValues := c.ValidatePossibleValues } []
  | .mk c (.schemaElem vals) =>
    .mk { cloneCore c false parentPath fieldName with
          PossibleValues := c.ValidatePossibleValues ++ vals } []

/-- The unsorted pass of `getAllInputAttributes`: keep the fields that are
`Required` or `Optional`. -/
def getAllInputAttributesU : List (String × SchemaS) → String → List (String × Attribute)
  | [], _ => []
  | (n, s) :: rest, pp =>
    (if s.Required || s.Optional then [(n, buildAttr pp n s)] else []) ++
      getAllInputAttributesU rest pp
end

/-- `func (gen) getAllInputAttributes`.  The source iterates
`sortFields(input)` (the field names in sorted order) and looks each one
up in the map; with distinct keys this equals filtering the entries and
sorting the result by key, which is how it is written here (the unused
`parent`/`isChild` parameters are dropped). -/
def getAllInputAttributes (input : List (String × SchemaS)) (parentPath : String) :
    List (String × Attribute) :=
  insSortB (fun a b => strLeB a.1 b.1) (getAllInputAttributesU input parentPath)

/-- `func (gen) getAllOutputAttributes`: ignores the schema and returns the
fixed `id` / `name` attributes. -/
def getAllOutputAttributes : List (String × Attribute) :=
  [ ("id", .mk { DataTypeString := "TypeString", Description := "The resource id" } [])
  , ("name", .mk { DataTypeString := "TypeString", Description := "The resource name" } []) ]

/-- The summary entry written for an attribute (`summaryAttribute\x7b...\x7d`
in `summariseAttributes`). -/
def mkSummary (published : Bool) (a : Attribute) : SummaryAttribute :=
  { Published := published
    IsBlock := a.IsBlock
    Required := a.Required
    Optional := a.Optional
    Computed := a.Computed }

/-- The re-wrapping `summaryAttribute\x7bPublished: v.Published, IsBlock:
v.IsBlock\x7d` applied to entries coming back from a recursive call. -/
def rewrap (w : SummaryAttribute) : SummaryAttribute :=
  { Published := w.Published, IsBlock := w.IsBlock }

mutual
/-- `func (gen) summariseAttributes`: flattens an attribute forest into a
map keyed by `ResourcePath`.  `published` is `parentRequired && Required`;
a block additionally contributes every entry of the recursive call,
re-wrapped to keep only `Published` and `IsBlock`.  The Go map is modelled
by an association list looked up by first match; the keys (resource paths)
are pairwise distinct whenever field names are. -/
def summariseAttributes : List (String × Attribute) → String → Bool →
    List (String × SummaryAttribute)
  | [], _, _ => []
  | (k, a) :: rest, rn, parentRequired =>
    summariseEntry k a rn parentRequired ++ summariseAttributes rest rn parentRequired

/-- One iteration of the `summariseAttributes` loop. -/
def summariseEntry (k : String) : Attribute → String → Bool →
    List (String × SummaryAttribute)
  | .mk c ch, rn, parentRequired =>
    let published := parentRequired && c.Required
    if c.IsBlock then
      (c.ResourcePath, mkSummary published (.mk c ch)) ::
        (summariseAttributes ch (rn ++ "." ++ k) published).map
          (fun p => (p.1, rewrap p.2))
    else
      [(c.ResourcePath, mkSummary published (.mk c ch))]
end

/-- Go map lookup with the zero value for missing keys
(`sa[a.ResourcePath]`). -/
def lookupSummary (sa : List (String × SummaryAttribute)) (k : String) : SummaryAttribute :=
  (sa.lookup k).getD {}

mutual
/-- `func (gen) getAllPublishedAttributes`: keeps the attributes whose
summary entry is `Published`; for a block the children are filtered by the
recursive call (the additional `Published` re-check of the source is the
`filter`, a no-op). -/
def getAllPublishedAttributes : List (String × Attribute) →
    List (String × SummaryAttribute) → List (String × Attribute)
  | [], _ => []
  | (k, a) :: rest, sa =>
    publishedEntry k a sa ++ getAllPublishedAttributes rest sa

/-- One iteration of the `getAllPublishedAttributes` loop. -/
def publishedEntry (k : String) : Attribute → List (String × SummaryAttribute) →
    List (String × Attribute)
  | .mk c ch, sa =>
    if !(lookupSummary sa c.ResourcePath).Published then []
    else
      let t : Attribute :=
        if c.IsBlock then
          .mk c ((getAllPublishedAttributes ch sa).filter
            (fun p => (lookupSummary sa p.2.ResourcePath).Published))
        else .mk c ch
      [(k, t)]
end

/-- `func (gen) getPublishedAttributes`: empty when the resource is not
resolved; otherwise the input attributes filtered by the summary read back
from disk (`readResourceProperties`, modelled by `gen.savedSummary`). -/
def getPublishedAttributes (gen : Gen) : List (String × Attribute) :=
  match gen.resource with
  | none => []
  | some schemaMap =>
    getAllPublishedAttributes (getAllInputAttributes schemaMap gen.resourceName)
      gen.savedSummary

/-! ### The injected (non-schema) attributes and option tables -/

def terraform_azurerm_azurerm_source : Attribute :=
  .mk { DataTypeString := "TypeString", Description := "String representing the source" } []
def terraform_azurerm_azurerm_version : Attribute :=
  .mk { DataTypeString := "TypeString", Description := "String representing the source" } []
def terraform_azurerm_azapi_source : Attribute :=
  .mk { DataTypeString := "TypeString", Description := "String representing the source" } []
def terraform_azurerm_azapi_version : Attribute :=
  .mk { DataTypeString := "TypeString", Description := "String representing the version" } []
def dlta_terraform_template : Attribute :=
  .mk { DataTypeString := "TypeString",
        Description := "Terraform template to provision this asset" } []
def dlta_naming_convention : Attribute :=
  .mk { DataTypeString := "TypeString",
        Description := "String that defines the naming convention for this asset type" } []
def dlta_environment_char : Attribute :=
  .mk { DataTypeString := "TypeString", Description := "Single character variable" } []
def dlta_application_short_code : Attribute :=
  .mk { DataTypeString := "TypeString",
        Description := "Short code representing the application" } []
def dlta_business_short_code : Attribute :=
  .mk { DataTypeString := "TypeString",
        Description := "Short code representing the business" } []
def dlta_instance_id : Attribute :=
  .mk { DataTypeString := "TypeString",
        Description := "3 digit string representing the instance" } []
def dlta_location_short_code : Attribute :=
  .mk { DataTypeString := "TypeString",
        Description := "3 digit string representing the region" } []
def dlta_vendor_asset_short_code : Attribute :=
  .mk { DataTypeString := "TypeString",
        Description := "short string representing the asset type" } []
def dlta_terraform_module_name : Attribute :=
  .mk { DataTypeString := "TypeString",
        Description := "Terraform Module Name e.g. azurerm_service_plan_1234" } []
def dlta_terraform_data_source_name : Attribute :=
  .mk { DataTypeString := "TypeString",
        Description := "Terraform Data Source Name e.g. ds-kvap-sec-demo-d-eun-001" } []
def dlta_terraform_is_data_source : Attribute :=
  .mk { DataTypeString := "TypeString",
        Description := "Terraform Data Source Tyoe e.g. resource|data" } []

def dlta_location_options : List KeyValue :=
  [⟨"northeurope", "northeurope"⟩, ⟨"westeurope", "westeurope"⟩]
def dlta_environment_char_options : List KeyValue :=
  [⟨"d", "d"⟩, ⟨"u", "u"⟩, ⟨"s", "s"⟩, ⟨"p", "p"⟩]
def dlta_application_short_code_options : List KeyValue :=
  [⟨"demo", "demo"⟩, ⟨"bigd", "bigd"⟩, ⟨"ecom", "ecom"⟩, ⟨"erp", "erp"⟩, ⟨"aldft", "aldft"⟩]
def dlta_business_short_code_options : List KeyValue :=
  [⟨"sec", "sec"⟩, ⟨"idt", "idt"⟩, ⟨"mgt", "mgt"⟩, ⟨"finc", "finc"⟩, ⟨"gdmz", "gdmz"⟩]
def dlta_instance_id_options : List KeyValue :=
  [⟨"001", "001"⟩, ⟨"002", "002"⟩, ⟨"003", "003"⟩]
def dlta_location_short_code_options : List KeyValue :=
  [⟨"eun", "eun"⟩, ⟨"euw", "euw"⟩]
def terraform_azurerm_azurerm_source_options : List KeyValue :=
  [⟨"hashicorp/azurerm", "hashicorp/azurerm"⟩]
def terraform_azurerm_azurerm_version_options : List KeyValue :=
  [⟨"3.59.0", "3.59.0"⟩]
def terraform_azurerm_azapi_source_options : List KeyValue :=
  [⟨"azure/azapi", "azure/azapi"⟩]
def terraform_azurerm_azapi_version_options : List KeyValue :=
  [⟨"1.6.0", "1.6.0"⟩]

/-- `func (gen) getInjectAttributes`, with the Go map written as an
association list in insertion order. -/
def getInjectAttributes (gen : Gen) : List (String × Attribute) :=
  if gen.resourceName = "terraform_azurerm" then
    [ ("terraform_azurerm_azurerm_source", terraform_azurerm_azurerm_source)
    , ("terraform_azurerm_azurerm_version", terraform_azurerm_azurerm_version)
    , ("terraform_azurerm_azapi_source", terraform_azurerm_azapi_source)
    , ("terraform_azurerm_azapi_version", terraform_azurerm_azapi_version)
    , ("dlta_terraform_template", dlta_terraform_template)
    , ("dlta_naming_convention", dlta_naming_convention) ]
  else if gen.resourceName = "devops_pipeline" then []
  else if gen.isDataSource then
    [ ("dlta_environment_char", dlta_environment_char)
    , ("dlta_application_short_code", dlta_application_short_code)
    , ("dlta_business_short_code", dlta_business_short_code)
    , ("dlta_instance_id", dlta_instance_id)
    , ("dlta_location_short_code", dlta_location_short_code)
    , ("dlta_vendor_asset_short_code", dlta_vendor_asset_short_code)
    , ("dlta_terraform_template", dlta_terraform_template)
    , ("dlta_naming_convention", dlta_naming_convention)
    , ("dlta_terraform_module_name", dlta_terraform_module_name)
    , ("dlta_terraform_data_source_name", dlta_terraform_data_source_name)
    , ("dlta_terraform_is_data_source", dlta_terraform_is_data_source) ]
  else
    [ ("dlta_environment_char", dlta_environment_char)
    , ("dlta_application_short_code", dlta_application_short_code)
    , ("dlta_business_short_code", dlta_business_short_code)
    , ("dlta_instance_id", dlta_instance_id)
    , ("dlta_location_short_code", dlta_location_short_code)
    , ("dlta_vendor_asset_short_code", dlta_vendor_asset_short_code)
    , ("dlta_terraform_template", dlta_terraform_template)
    , ("dlta_naming_convention", dlta_naming_convention)
    , ("dlta_terraform_module_name", dlta_terraform_module_name)
    , ("dlta_terraform_is_data_source", dlta_terraform_is_data_source) ]

/-- `func (gen) injectAttributes`: one Go map filled with the injected
attributes and then the published ones, so a published attribute wins on a
key collision.  Modelled extensionally: the injected entries not shadowed,
followed by the published entries. -/
def injectAttributes (gen : Gen) : List (String × Attribute) :=
  let inj := getInjectAttributes gen
  let pub := getPublishedAttributes gen
  inj.filter (fun p => (pub.lookup p.1).isNone) ++ pub

/-- The list of fields shared by every entry of the naming tables in
`getResourceNamingConvention` (spelled out per entry in the source). -/
def dltaNamingFields : List String :=
  [ "dlta_vendor_asset_short_code", "dlta_business_short_code"
  , "dlta_application_short_code", "dlta_environment_char"
  , "dlta_location_short_code", "dlta_instance_id" ]

/-- The `resourceSpecificNaming` table. -/
def resourceSpecificNaming : List (String × namingStruct) :=
  [ ("terraform_azurerm", { Delimiter := "-", StaticName := "terraform_azurerm" })
  , ("azurerm_subscription", { Delimiter := "-", Fields := dltaNamingFields })
  , ("azurerm_resource_group", { Delimiter := "-", Fields := dltaNamingFields })
  , ("azurerm_windows_web_app", { Delimiter := "-", Fields := dltaNamingFields })
  , ("azurerm_windows_function_app", { Delimiter := "-", Fields := dltaNamingFields })
  , ("azurerm_service_plan", { Delimiter := "-", Fields := dltaNamingFields })
  , ("azurerm_storage_account", { Delimiter := "", Fields := dltaNamingFields })
  , ("azurerm_cdn_frontdoor_profile", { Delimiter := "-", Fields := dltaNamingFields })
  , ("azurerm_cdn_frontdoor_endpoint", { Delimiter := "-", Fields := dltaNamingFields })
  , ("azurerm_cdn_frontdoor_origin_group", { Delimiter := "-", Fields := dltaNamingFields })
  , ("azurerm_cdn_frontdoor_origin", { Delimiter := "-", Fields := dltaNamingFields })
  , ("azurerm_key_vault_access_policy", { Delimiter := "-", Fields := dltaNamingFields })
  , ("azurerm_key_vault", { Delimiter := "-", Fields := dltaNamingFields })
  , ("azurerm_private_endpoint", { Delimiter := "-", Fields := dltaNamingFields })
  , ("azurerm_virtual_network", { Delimiter := "-", Fields := dltaNamingFields })
  , ("azurerm_subnet", { Delimiter := "-", Fields := dltaNamingFields }) ]

/-- The `dataSourceSpecificNaming` table. -/
def dataSourceSpecificNaming : List (String × namingStruct) :=
  [ ("azurerm_subnet",
      { Delimiter := "-", IsDataSource := true, Prefix_ := "ds", Fields := dltaNamingFields })
  , ("azurerm_key_vault_certificate",
      { Delimiter := "-", IsDataSource := true, Prefix_ := "ds", Fields := dltaNamingFields }) ]

/-- `func (gen) getResourceNamingConvention`: Go map lookup yields the zero
`namingStruct` for unknown names. -/
def getResourceNamingConvention (resourceName : String) (isDataSource : Bool) : String :=
  let entry : namingStruct :=
    if isDataSource then ((dataSourceSpecificNaming.lookup resourceName).getD {})
    else ((resourceSpecificNaming.lookup resourceName).getD {})
  if entry.StaticName != "" then entry.StaticName
  else
    let pre := if entry.Prefix_ != "" then entry.Prefix_ ++ entry.Delimiter else ""
    let n := entry.Fields.length
    pre ++ String.join (entry.Fields.enum.map fun iv =>
      "$\x7b" ++ iv.2 ++ "\x7d" ++ (if iv.1 < n - 1 then entry.Delimiter else ""))

/-! ### The terraform template block -/

/-- `s += f x` for each element, i.e. concatenation over the list. -/
def joinMap (f : α → String) (l : List α) : String := String.join (l.map f)

/-- The `cs` computation repeated in `terraformModuleBlock`,
`terraformVariableBlock` and `terraformLocalBlock`: joins the resource
path segments with `_`, skipping segment 0 (the separator is attached to
every non-final segment). -/
def csFromResourcePath (rp : String) : String :=
  let parts := mySplitOn rp '.'
  let n := parts.length
  String.join (parts.enum.map fun iv =>
    if iv.1 = 0 then "" else iv.2 ++ (if iv.1 < n - 1 then "_" else ""))

/-- Body of the innermost template loop (`for n2, at2 := range
at1.Attributes`). -/
def templateL3 (n2 : String) (at2 : Attribute) : String :=
  if n2 = "name" && at2.ResourcePath != "azurerm_subnet.delegation.service_delegation.name" then ""
  else if n2 = "name" then
    let vn := genVariableNameFromResourcePath at2.ResourcePath
    "\t" ++ vn ++ "\t\t= $\x7b" ++ vn ++ "\x7d\n"
  else if at2.DataTypeString = "TypeList" then
    "\t" ++ n2 ++ "\t\t= $\x7b" ++ n2 ++ "\x7d\n"
  else
    "\t" ++ n2 ++ "\t\t= \"$\x7b" ++ n2 ++ "\x7d\"\n"

/-- Body of the middle template loop (`for n1, at1 := range
at.Attributes`).  The second special case compares `n1` against the
literal `"is_manual_connection\t\t"`, tabs included, as in the source. -/
def templateL2 (isDS : Bool) (n1 : String) (at1 : Attribute) : String :=
  if !at1.IsBlock then
    if n1 = "name" then ""
    else if n1 = "private_connection_resource_id" then
      if isDS then "\tprivate_connection_resource_id\t\t= \"$\x7bDataResourceGroup\x7d\"\n"
      else "\tprivate_connection_resource_id\t\t= module.$\x7bprivate_connection_resource_id\x7d.id\n"
    else if n1 = "is_manual_connection\t\t" then
      if isDS then "\tis_manual_connection\t\t\t\t= \"$\x7bDataResourceGroup\x7d\"\n"
      else "\tis_manual_connection\t\t\t\t= $\x7bis_manual_connection\t\t\x7d\n"
    else if at1.DataTypeString = "TypeList" then
      "\t" ++ n1 ++ "\t\t= $\x7b" ++ n1 ++ "\x7d\n"
    else
      "\t" ++ n1 ++ "\t\t= \"$\x7b" ++ n1 ++ "\x7d\"\n"
  else joinMap (fun p => templateL3 p.1 p.2) at1.Attributes

/-- The hardcoded field-name switch for non-block top-level template
fields. -/
def templateL1Leaf (isDS : Bool) (n : String) (a : Attribute) : String :=
  if n = "resource_group_name" then
    if isDS then "\tresource_group_name\t\t= \"$\x7bDataResourceGroup\x7d\"\n"
    else "\tresource_group_name\t\t= module.$\x7bResourceGroup\x7d.name\n"
  else if n = "virtual_network_name" then
    if isDS then "\tvirtual_network_name\t\t= \"$\x7bDataResourceGroup\x7d\"\n"
    else "\tvirtual_network_name\t\t= module.$\x7bvirtual_network_name\x7d.name\n"
  else if n = "private_connection_resource_id" then
    if isDS then "\tprivate_connection_resource_id\t\t= \"$\x7bDataResourceGroup\x7d\"\n"
    else "\tprivate_connection_resource_id\t\t= module.$\x7bprivate_connection_resource_id\x7d.id\n"
  else if n = "subnet_id" then
    if isDS then "\tsubnet_id\t\t= \"$\x7bDataResourceGroup\x7d\"\n"
    else "\tsubnet_id\t\t= module.$\x7bsubnet_id\x7d.id\n"
  else if n = "service_plan_id" then
    if isDS then "\tservice_plan_id\t\t= \"$\x7bDataResourceGroup\x7d\"\n"
    else "\tservice_plan_id\t\t= module.$\x7bservice_plan_id\x7d.id\n"
  else if n = "storage_account_name" then
    if isDS then "\tstorage_account_name\t\t= \"$\x7bDataResourceGroup\x7d\"\n"
    else "\tstorage_account_name\t\t= module.$\x7bstorage_account_name\x7d.name\n"
  else if n = "storage_uses_managed_identity" then
    if isDS then "\tstorage_account_name\t\t= \"$\x7bDataResourceGroup\x7d\"\n"
    else "\tstorage_uses_managed_identity\t\t\t\t= $\x7bstorage_uses_managed_identity\x7d\n"
  else if n = "virtual_network_subnet_id" then
    if isDS then "\tstorage_account_name\t\t= \"$\x7bDataResourceGroup\x7d\"\n"
    else "\tvirtual_network_subnet_id\t\t\t\t= module.$\x7bvirtual_network_subnet_id\x7d.id\n"
  else if a.DataTypeString = "TypeList" then
    "\t" ++ n ++ "\t\t= $\x7b" ++ n ++ "\x7d\n"
  else
    "\t" ++ n ++ "\t\t= \"$\x7b" ++ n ++ "\x7d\"\n"

/-- The generic `<name> = "$\x7b<name>\x7d"` form of the template (the final
`else` of the switch), for comparison with the hardcoded branches. -/
def templateGenericLine (n : String) (a : Attribute) : String :=
  if a.DataTypeString = "TypeList" then
    "\t" ++ n ++ "\t\t= $\x7b" ++ n ++ "\x7d\n"
  else
    "\t" ++ n ++ "\t\t= \"$\x7b" ++ n ++ "\x7d\"\n"

/-- Body of the outer template loop (`for n, at := range attributes`). -/
def templateL1 (isDS : Bool) (n : String) (a : Attribute) : String :=
  if n = "location" || containsSub n "dlta" || n = "name" then ""
  else if a.Computed then ""
  else if !a.IsBlock then templateL1Leaf isDS n a
  else joinMap (fun p => templateL2 isDS p.1 p.2) a.Attributes

/-- Everything the non-special branch of `terraformTemplateBlock` emits
before its attribute loop: the `module`/`data` header and the fixed
`dlta_*` lines. -/
def templateHeader (gen : Gen) (attributes : List (String × Attribute)) : String :=
  (if gen.isDataSource then
    "data \"" ++ gen.resourceName ++ "\" \"$\x7bdlta_terraform_module_name\x7d\" \x7b\n"
  else
    "module \"$\x7bdlta_terraform_module_name\x7d\" \x7b\n" ++
    "\tsource                      = \"__modules_path__//r//" ++ gen.resourceName ++
      "//module?ref=main\"\n")
  ++ (if (((attributes.lookup "location").map Attribute.DataTypeString).getD "") != "" then
        "\tlocation                    = \"$\x7blocation\x7d\"\n" else "")
  ++ "\tdlta_location_short_code    = $\x7bdlta_location_short_code\x7d\n"
  ++ "\tdlta_environment_char       = $\x7bdlta_environment_char\x7d\n"
  ++ "\tdlta_business_short_code    = $\x7bdlta_business_short_code\x7d\n"
  ++ "\tdlta_application_short_code = $\x7bdlta_application_short_code\x7d\n"
  ++ "\tdlta_instance_id            = $\x7bdlta_instance_id\x7d\n"
  ++ "\tdlta_vendor_asset_short_code\t= $\x7bdlta_vendor_asset_short_code\x7d\n"

/-- `func (gen) terraformTemplateBlock`, abstracted over the attribute
map it iterates (`attributes := gen.injectAttributes()` in the source). -/
def terraformTemplateBlockCore (gen : Gen) (attributes : List (String × Attribute)) : String :=
  if gen.resourceName != "terraform_azurerm" && gen.resourceName != "devops_pipeline" then
    templateHeader gen attributes
    ++ joinMap (fun p => templateL1 gen.isDataSource p.1 p.2) attributes
    ++ "\x7d\n"
  else if gen.resourceName = "terraform_azurerm" then
    "terraform \x7b\n"
    ++ "\trequired_providers \x7b\n"
    ++ "\t\tazurerm = \x7b\n"
    ++ "\t\t\tsource =  \"$\x7bterraform_azurerm_azurerm_source\x7d\"\n"
    ++ "\t\t\tversion = \"$\x7bterraform_azurerm_azurerm_version\x7d\"\n"
    ++ "\t\t\x7d\n"
    ++ "\t\tazapi = \x7b\n"
    ++ "\t\t\tsource =  \"$\x7bterraform_azurerm_azapi_source\x7d\"\n"
    ++ "\t\t\tversion = \"$\x7bterraform_azurerm_azapi_version\x7d\"\n"
    ++ "\t\t\x7d\n"
    ++ "\t\x7d\n"
    ++ "\tbackend \"azurerm\" \x7b\n"
    ++ "\t\x7d\n"
    ++ "\x7d\n"
    ++ "provider \"azurerm\" \x7b\n"
    ++ "\tfeatures \x7b\n"
    ++ "\t\x7d\n"
    ++ "\x7d\n"
  else
    "name: $(connection)-$(Date:yyyyMMdd)$(Rev:.r)\n"
    ++ "variables:\n"
    ++ "  connection: \x27sub-ret-d-001\x27\n"
    ++ "trigger: none\n"
    ++ "resources:\n"
    ++ "  repositories:\n"
    ++ "\t- repository: Repo.Pipelines\n"
    ++ "\t  type: git\n"
    ++ "\t  name: Repo.Pipelines\n"
    ++ "\t  ref: refs/heads/main\n"
    ++ "stages:\n"
    ++ "- template: TerraformStages.yml@Repo.Pipelines\n"
    ++ "  parameters:\n"
    ++ "\tServiceShort      : storage_policy_test\n"
    ++ "\tserviceConnection : \x27ServiceConnection.sub-ret-d-001\x27\n"
    ++ "\tEnvironmentShort  : dev\n"

/-- `func (gen) terraformTemplateBlock`. -/
def terraformTemplateBlock (gen : Gen) : String :=
  terraformTemplateBlockCore gen (injectAttributes gen)

/-! ### The terraform module block -/

/-- Innermost module loop (`for k2, a2 := range a.Attributes`). -/
def moduleL3 (k2 : String) (a2 : Attribute) : String :=
  if k2 = "name" then
    "\t\t\tname = var." ++ genVariableNameFromResourcePath a2.ResourcePath ++ "\n"
  else "\t\t\t" ++ k2 ++ " = var." ++ k2 ++ "\n"

/-- Middle module loop (`for k, a := range at.Attributes`). -/
def moduleL2 (k : String) (a : Attribute) : String :=
  if !a.IsBlock then
    if k = "name" then "\t\tname = local." ++ csFromResourcePath a.ResourcePath ++ "\n"
    else "\t\t" ++ k ++ " = var." ++ k ++ "\n"
  else
    "\t\t" ++ k ++ " \x7b\n" ++ joinMap (fun p => moduleL3 p.1 p.2) a.Attributes ++ "\t\t\x7d\n"

/-- Outer module loop, `moduleBlock` contribution (everything except
top-level non-block `TypeList` fields, which go to `appendBlock`). -/
def moduleL1Main (n : String) (a : Attribute) : String :=
  if a.Computed then ""
  else if n = "name" then ""
  else if containsSub n "dlta_" then ""
  else if !a.IsBlock then
    if a.DataTypeString = "TypeList" then "" else "\t" ++ n ++ " = var." ++ n ++ "\n"
  else
    "\t" ++ n ++ " \x7b\n" ++ joinMap (fun p => moduleL2 p.1 p.2) a.Attributes ++ "\t\x7d\n"

/-- Outer module loop, `appendBlock` contribution. -/
def moduleL1Append (n : String) (a : Attribute) : String :=
  if a.Computed then ""
  else if n = "name" then ""
  else if containsSub n "dlta_" then ""
  else if !a.IsBlock && a.DataTypeString = "TypeList" then "\t" ++ n ++ " = var." ++ n ++ "\n"
  else ""

/-- `func (gen) terraformModuleBlock`, abstracted over the attribute map. -/
def terraformModuleBlockCore (gen : Gen) (attributes : List (String × Attribute)) : String :=
  "resource \"" ++ gen.resourceName ++ "\" \"this\" \x7b\n"
  ++ "\tname = local.name\n"
  ++ joinMap (fun p => moduleL1Main p.1 p.2) attributes
  ++ joinMap (fun p => moduleL1Append p.1 p.2) attributes
  ++ "\x7d\n"

/-- `func (gen) terraformModuleBlock`. -/
def terraformModuleBlock (gen : Gen) : String :=
  terraformModuleBlockCore gen (injectAttributes gen)

/-! ### The terraform variable block -/

/-- One `variable "..." \x7b ... \x7d` stanza.  `dfltCond` is the emptiness
test of the source (which at the inner levels checks the *outer*
attribute's `Default`, while printing the inner one). -/
def variableStanza (name desc ty : String) (dfltCond : Bool) (dflt : String) : String :=
  "variable \"" ++ name ++ "\" \x7b\n"
  ++ "\tdescription = \"" ++ desc ++ "\"\n"
  ++ "\ttype = " ++ ty ++ "\n"
  ++ (if dfltCond then "\tdefault = \"" ++ dflt ++ "\"\n" else "")
  ++ "\x7d\n"

/-- Innermost variable loop (`for n2, at2 := range at1.Attributes`);
`outerDflt` is the enclosing `at.Default`. -/
def variableL3 (outerDflt : String) (n2 : String) (at2 : Attribute) : String :=
  if n2 = "name" then
    variableStanza (csFromResourcePath at2.ResourcePath) at2.Description
      (translateDataType at2.DataTypeString) (outerDflt != "") at2.Default
  else
    variableStanza n2 at2.Description (translateDataType at2.DataTypeString)
      (outerDflt != "") at2.Default

/-- Middle variable loop (`for n1, at1 := range at.Attributes`). -/
def variableL2 (outerDflt : String) (n1 : String) (at1 : Attribute) : String :=
  if !at1.IsBlock then
    if n1 = "name" then ""
    else
      variableStanza n1 at1.Description (translateDataType at1.DataTypeString)
        (outerDflt != "") at1.Default
  else joinMap (fun p => variableL3 outerDflt p.1 p.2) at1.Attributes

/-- Outer variable loop (`for n, at := range attributes`). -/
def variableL1 (n : String) (a : Attribute) : String :=
  if n = "name" then ""
  else if n = "dlta_terraform_template" || n = "dlta_naming_convention" ||
      n = "dlta_terraform_module_name" || n = "dlta_terraform_is_data_source" then ""
  else if a.Computed then ""
  else if !a.IsBlock then
    variableStanza n a.Description (translateDataType a.DataTypeString)
      (a.Default != "") a.Default
  else joinMap (fun p => variableL2 a.Default p.1 p.2) a.Attributes

/-- `func (gen) terraformVariableBlock`, abstracted over the attribute map. -/
def terraformVariableBlockCore (attributes : List (String × Attribute)) : String :=
  joinMap (fun p => variableL1 p.1 p.2) attributes

/-- `func (gen) terraformVariableBlock`. -/
def terraformVariableBlock (gen : Gen) : String :=
  terraformVariableBlockCore (injectAttributes gen)

/-! ### The terraform local block -/

/-- The `name` line of the locals block. -/
def localNameLine (resourceName : String) : String :=
  if resourceName = "azurerm_storage_account" then
    "\tname = format(\"%s%s%s%s%s%s\",var.dlta_vendor_asset_short_code,var.dlta_business_short_code,var.dlta_application_short_code,var.dlta_environment_char,var.dlta_location_short_code,var.dlta_instance_id)\n"
  else
    "\tname = format(\"%s-%s-%s-%s-%s-%s\",var.dlta_vendor_asset_short_code,var.dlta_business_short_code,var.dlta_application_short_code,var.dlta_environment_char,var.dlta_location_short_code,var.dlta_instance_id)\n"

/-- Inner local loop (`for k, a := range at.Attributes`): the `name`
children of blocks get a generated local.  `resShort1` is recomputed from
segment 1 of the resource path (`getResourceShortCode`, whose Go panic on
an empty segment is collapsed to `""` here; block names are nonempty
terraform identifiers in every run considered). -/
def localL2 (k : String) (a : Attribute) : String :=
  if k = "name" then
    let parts := mySplitOn a.ResourcePath '.'
    let variableName := csFromResourcePath a.ResourcePath
    let resourceName := (parts.drop 1).headD ""
    let resShort1 := getResourceShortCodeD resourceName
    "\t" ++ variableName ++ " = format(\"%s-%s-%s-%s-%s-%s\",\"" ++ resShort1 ++
      "\",var.dlta_business_short_code,var.dlta_application_short_code,var.dlta_environment_char,var.dlta_location_short_code,var.dlta_instance_id)\n"
  else ""

/-- Outer local loop body. -/
def localL1 (resourceName : String) (n : String) (a : Attribute) : String :=
  (if n = "name" then localNameLine resourceName else "")
  ++ (if a.IsBlock then joinMap (fun p => localL2 p.1 p.2) a.Attributes else "")

/-- `func (gen) terraformLocalBlock`, abstracted over the attribute map. -/
def terraformLocalBlockCore (gen : Gen) (attributes : List (String × Attribute)) : String :=
  "locals \x7b\n"
  ++ joinMap (fun p => localL1 gen.resourceName p.1 p.2) attributes
  ++ "\x7d\n"

/-- `func (gen) terraformLocalBlock`. -/
def terraformLocalBlock (gen : Gen) : String :=
  terraformLocalBlockCore gen (injectAttributes gen)

/-! ### The terraform output block -/

/-- `func (gen) terraformOutputBlock`, abstracted over the attribute map
it ranges (`for k, _ := range attributes` in the source): empty when the
resource is unresolved, otherwise one `output` stanza per entry. -/
def terraformOutputBlockCore (gen : Gen) (attributes : List (String × Attribute)) : String :=
  match gen.resource with
  | none => ""
  | some _ =>
    joinMap (fun p =>
      "output \"" ++ p.1 ++ "\" \x7b\n"
      ++ "\tvalue = " ++ gen.resourceName ++ ".this." ++ p.1 ++ "\n"
      ++ "\x7d\n") attributes

/-- `func (gen) terraformOutputBlock` at the representative order of
`getAllOutputAttributes` (which ignores the schema). -/
def terraformOutputBlock (gen : Gen) : String :=
  terraformOutputBlockCore gen getAllOutputAttributes

/-! ### The palette props and SQL script -/

/-- `attribute\x7b\x7d`, the zero attribute passed for the synthetic
`AssetType` / `Name` props. -/
def emptyAttr : Attribute := .mk {} []

/-- `func (gen) getPalletProp`.  The prelude before the `switch` fills the
generic fields; each case then overrides.  The Go local `flattenName` is a
string variable whose address is stored in `pp.FlattenName`; since the
function is sequential, this is modelled by the final value of that
variable. -/
def getPalletProp (gen : Gen) (a : Attribute) (name : String) : PaletteProp :=
  let pp0 : PaletteProp :=
    { ID := name
      Type_ := translateDataType a.DataTypeString
      Name := convertNameToLabel name
      Disabled := false
      FlattenName := some ""
      CurrentValue := initiaiseAttribute a.DataTypeString }
  if name = "name" then
    -- a name with possible options/values is not a generated name
    if a.PossibleOptions.length > 0 || a.PossibleValues.length > 0 then
      let vn := genVariableNameFromResourcePath a.ResourcePath
      let pp1 := { pp0 with ID := vn, Name := convertNameToLabel vn }
      let pp2 :=
        if a.PossibleValues.length > 0 then
          let opts := a.PossibleValues.map fun v => KeyValue.mk v v
          if a.DataTypeString = "TypeList" then
            -- `var a []string; pp.CurrentValue = a`: a nil slice
            { pp1 with Options := opts, Type_ := "checkboxes", CurrentValue := J.null }
          else
            { pp1 with Options := opts, Type_ := "select", CurrentValue := J.str "" }
        else pp1
      if a.DataTypeString = "TypeBool" then { pp2 with Type_ := "checkbox" } else pp2
    else pp0
  else if name = "AssetType" then
    { pp0 with
      ID := "AssetType"
      Type_ := "string"
      Name := "Asset Type:"
      Disabled := true
      FlattenName := some "AssetType"
      CurrentValue := J.str gen.resourceName }
  else if name = "Name" then
    -- the name of the asset as dropped onto the canvas
    { pp0 with
      ID := "name"
      Type_ := "string"
      Name := "Name:"
      Disabled := true
      FlattenName := some "Name"
      CurrentValue := initiaiseAttribute "TypeString"
      Validators := some [("required", J.bool true), ("minLength", J.int 3)] }
  else if name = "location" then
    { pp0 with
      Options := dlta_location_options
      Type_ := if dlta_location_options.length > 0 then "select" else pp0.Type_
      CurrentValue := J.str ((dlta_location_options.headD ⟨"", ""⟩).Value) }
  else if name = "dlta_application_short_code" then
    { pp0 with
      Options := dlta_application_short_code_options
      Type_ := if dlta_application_short_code_options.length > 0 then "select" else pp0.Type_
      CurrentValue := J.str ((dlta_application_short_code_options.headD ⟨"", ""⟩).Value) }
  else if name = "dlta_business_short_code" then
    { pp0 with
      Options := dlta_business_short_code_options
      Type_ := if dlta_business_short_code_options.length > 0 then "select" else pp0.Type_
      CurrentValue := J.str ((dlta_business_short_code_options.headD ⟨"", ""⟩).Value) }
  else if name = "dlta_environment_char" then
    { pp0 with
      Options := dlta_environment_char_options
      Type_ := if dlta_environment_char_options.length > 0 then "select" else pp0.Type_
      CurrentValue := J.str ((dlta_environment_char_options.headD ⟨"", ""⟩).Value) }
  else if name = "dlta_instance_id" then
    { pp0 with
      Options := dlta_instance_id_options
      Type_ := if dlta_instance_id_options.length > 0 then "select" else pp0.Type_
      CurrentValue := J.str ((dlta_instance_id_options.headD ⟨"", ""⟩).Value) }
  else if name = "dlta_location_short_code" then
    { pp0 with
      Options := dlta_location_short_code_options
      Type_ := if dlta_location_short_code_options.length > 0 then "select" else pp0.Type_
      CurrentValue := J.str ((dlta_location_short_code_options.headD ⟨"", ""⟩).Value) }
  else if name = "dlta_vendor_asset_short_code" then
    { pp0 with CurrentValue := J.str gen.ShortCode, Disabled := true }
  else if name = "dlta_terraform_template" then
    { pp0 with
      CurrentValue := J.str (terraformTemplateBlock gen)
      Disabled := true
      Type_ := "textarea" }
  else if name = "dlta_terraform_is_data_source" then
    { pp0 with
      CurrentValue := J.str (if gen.isDataSource then "data" else "resource")
      Disabled := true }
  else if name = "resource_group_name" then
    if gen.isDataSource then
      -- `pp = PaletteProp\x7b\x7d` resets every field first
      { ID := "DataResourceGroup"
        Type_ := "string"
        Name := "Resource Group:"
        Disabled := false
        FlattenName := some ""
        CurrentValue := J.null }
    else
      { ID := "ResourceGroup"
        Type_ := "string"
        Name := "Resource Group:"
        Disabled := true
        FlattenName := some "ResourceGroups"
        CurrentValue := J.null }
  else if name = "terraform_azurerm_azapi_source" then
    { pp0 with
      Options := terraform_azurerm_azapi_source_options
      Type_ := if terraform_azurerm_azapi_source_options.length > 0 then "select" else pp0.Type_
      CurrentValue := J.str ((terraform_azurerm_azapi_source_options.headD ⟨"", ""⟩).Value) }
  else if name = "terraform_azurerm_azapi_version" then
    { pp0 with
      Options := terraform_azurerm_azapi_version_options
      Type_ := if terraform_azurerm_azapi_version_options.length > 0 then "select" else pp0.Type_
      CurrentValue := J.str ((terraform_azurerm_azapi_version_options.headD ⟨"", ""⟩).Value) }
  else if name = "terraform_azurerm_azurerm_source" then
    { pp0 with
      Options := terraform_azurerm_azurerm_source_options
      Type_ := if terraform_azurerm_azurerm_source_options.length > 0 then "select" else pp0.Type_
      CurrentValue := J.str ((terraform_azurerm_azurerm_source_options.headD ⟨"", ""⟩).Value) }
  else if name = "terraform_azurerm_azurerm_version" then
    { pp0 with
      Options := terraform_azurerm_azurerm_version_options
      Type_ := if terraform_azurerm_azurerm_version_options.length > 0 then "select" else pp0.Type_
      CurrentValue := J.str ((terraform_azurerm_azurerm_version_options.headD ⟨"", ""⟩).Value) }
  else if name = "dlta_naming_convention" then
    { pp0 with CurrentValue := J.str gen.NamingConvention, Disabled := true }
  else
    let pp1 :=
      if a.PossibleValues.length > 0 then
        let opts := a.PossibleValues.map fun v => KeyValue.mk v v
        if a.DataTypeString = "TypeList" then
          { pp0 with Options := opts, Type_ := "checkboxes", CurrentValue := J.null }
        else
          { pp0 with Options := opts, Type_ := "select" }
      else pp0
    if a.DataTypeString = "TypeBool" then { pp1 with Type_ := "checkbox" } else pp1

/-- The body of the `for n, fs := range attributes` loop of
`dltaPalletteCodeBlock`: the if-chain dispatching on `n` passes `n` itself
to `getPalletProp` in every branch (including the final `else`); the prop
built for a block itself is discarded and replaced by the props of its
children (one level of nesting is flattened; grandchildren are emitted
whether or not they are themselves blocks, and nothing deeper is
visited). -/
def paletteEntry (gen : Gen) (n : String) (fs : Attribute) : List PaletteProp :=
  if n = "name" then []
  else if fs.IsBlock then
    fs.Attributes.flatMap fun p =>
      if !p.2.IsBlock then [getPalletProp gen p.2 p.1]
      else p.2.Attributes.map fun q => getPalletProp gen q.2 q.1
  else [getPalletProp gen fs n]

/-- The `creation` value of `dltaPalletteCodeBlock`: the `AssetType` prop,
a `Name` prop for non-special resources, then the props of the attribute
map. -/
def paletteCreation (gen : Gen) (attributes : List (String × Attribute)) : Creator :=
  { CreateFunction := gen.resourceName
    Props :=
      [getPalletProp gen emptyAttr "AssetType"]
      ++ (if gen.resourceName != "terraform_azurerm" && gen.resourceName != "devops_pipeline"
            && !gen.isDataSource then
          [getPalletProp gen emptyAttr "Name"] else [])
      ++ attributes.flatMap fun p => paletteEntry gen p.1 p.2 }

/-- The fixed column list of the palette `insert` statement. -/
def sqlInsertColumns : String :=
  "insert into core.infra_asset (\n" ++
  "\t\t\t\tid, \t\tguid, infra_id, name,\tlabel,\ttype,\tactive, \taddable,\tasset_type,\treflect_type, \tpalette_design, form_fields, \tattributes, created_at, updated_at, deleted_at, updated_by,\trank, \thas_cost, svg_icon) values (\n"

/-- The values row of the palette `insert` statement (`u` is
`uuid.New().String()`). -/
def sqlInsertValues (u resourceName : String) : String :=
  "\tDEFAULT, \t\x27" ++ u ++ "\x27, 1, \t\t\x27" ++ resourceName ++ "\x27, \t\x27" ++
    resourceName ++ "\x27, \t\x27\x27, \ttrue, \t\ttrue, \t\t\x27" ++ resourceName ++
    "\x27,\t\t\x27none\x27, \t\tnull, \t\t\t\x27\x7b\x7d\x27, \t\t\tnull, \t\tnow(), \t\tnow(), \t\tnull, \t\t1,\t\t\t14, \tfalse, \t\t\x27\x27\t\n"

/-- `func (gen) dltaPalletteCodeBlock`, abstracted over the attribute map
and the drawn uuid `u`. -/
def dltaPalletteCodeBlockCore (gen : Gen) (u : String)
    (attributes : List (String × Attribute)) : String :=
  sqlInsertColumns
  ++ sqlInsertValues u gen.resourceName
  ++ ");\n"
  ++ "UPDATE core.infra_asset SET has_cost= false,\nform_fields = \x27"
  ++ writeJsonCreator (paletteCreation gen attributes)
  ++ "\x27\nwhere asset_type = \x27" ++ gen.resourceName ++ "\x27"
  ++ ";"

/-- `func (gen) dltaPalletteCodeBlock`. -/
def dltaPalletteCodeBlock (gen : Gen) (u : String) : String :=
  dltaPalletteCodeBlockCore gen u (injectAttributes gen)

/-! ### The file-system model and the write functions -/

/-- The file-system state: files (path to content), the printed log, and a
ghost trace of the target path of every attempted artifact write. -/
structure FSState where
  files : List (String × String) := []
  output : List String := []
  attempts : List String := []

/-- Which `os.MkdirAll` / `os.Create` calls fail (everything else is
deterministic given the state). -/
structure FSEnv where
  mkdirFails : String → Bool := fun _ => false
  createFails : String → Bool := fun _ => false

def fsExists (fs : FSState) (path : String) : Bool := (fs.files.lookup path).isSome

def fsRemove (fs : FSState) (path : String) : FSState :=
  { fs with files := fs.files.filter (fun p => p.1 != path) }

def fsSet (fs : FSState) (path content : String) : FSState :=
  { fs with files := (path, content) :: fs.files.filter (fun p => p.1 != path) }

def fsPrint (fs : FSState) (line : String) : FSState :=
  { fs with output := fs.output ++ [line] }

def fsAttempt (fs : FSState) (path : String) : FSState :=
  { fs with attempts := fs.attempts ++ [path] }

/-- The `fileName` chosen by the if-chain of `writeResource` (no branch
for `PublishedPropertiesSummary`, whose name stays empty). -/
def artefactFileName : Artefact → String
  | .TerraformTemplate => "template.json"
  | .ModuleBlock => "main.tf"
  | .VariableBlock => "variables.tf"
  | .PalletteBlock => "pallette.sql"
  | .OutputBlock => "output.tf"
  | .LocalBlock => "local.tf"
  | .PublishedPropertiesSummary => ""

/-- The `subDir` chosen by the if-chain of `writeResource`. -/
def artefactSubDir : Artefact → String
  | .TerraformTemplate => "resource"
  | .ModuleBlock => "module"
  | .VariableBlock => "module"
  | .PalletteBlock => "resource"
  | .OutputBlock => "module"
  | .LocalBlock => "module"
  | .PublishedPropertiesSummary => ""

/-- `resourceKind`: `"r"` for a resource, `"d"` for a data source. -/
def resourceKind (gen : Gen) : String := if !gen.isResource then "d" else "r"

/-- `outputDirectoryName` of `writeResource`
(`fmt.Sprintf("/%s/%s/%s/%s/", ...)`). -/
def writeResourceDir (gen : Gen) (a : Artefact) : String :=
  "/" ++ gen.dltaPath ++ "/" ++ resourceKind gen ++ "/" ++ gen.resourceName ++ "/" ++
    artefactSubDir a ++ "/"

/-- `outputFileName` of `writeResource`
(`fmt.Sprintf("/%s/%s/%s/%s/%s", ...)`). -/
def writeResourcePath (gen : Gen) (a : Artefact) : String :=
  "/" ++ gen.dltaPath ++ "/" ++ resourceKind gen ++ "/" ++ gen.resourceName ++ "/" ++
    artefactSubDir a ++ "/" ++ artefactFileName a

/-- `func (gen) writeResource`: remove the file first when forced; print
and skip when it (still) exists; otherwise create the directory and the
file and write `s`, printing (and discarding) any error.  When `os.Create`
fails the file handle is nil and the subsequent `WriteString`/`Sync`
return discarded errors, so nothing is written.  (The `os.IsExist(err)`
re-create branch never fires for a failed `os.Create`, whose error is not
an exists-error on the paths modelled here.)  The returned string is the
function's result value. -/
def writeResource (gen : Gen) (env : FSEnv) (s : String) (a : Artefact) (fs : FSState) :
    String × FSState :=
  let outputPath := writeResourcePath gen a
  let outputDirectoryPath := writeResourceDir gen a
  let fs := fsAttempt fs outputPath
  let fs := if gen.isForced && fsExists fs outputPath then fsRemove fs outputPath else fs
  if fsExists fs outputPath then
    ("", fsPrint fs ("writeResource \x223. File exists error\x22  on path: " ++ outputPath))
  else
    let fs := if env.mkdirFails outputDirectoryPath then
        fsPrint fs "writeResource \x224.1 directory error\x22" else fs
    if env.createFails outputPath then
      ("", fsPrint fs "writeResource \x224. file error\x22")
    else
      ("", fsSet fs outputPath s)

/-- `outputFileName` of `writeInitResourceProperties`
(`fmt.Sprintf("%s/%s/%s/%s/%s.json", ...)`, no leading slash, unlike
`writeResource`). -/
def initOutputPath (gen : Gen) : String :=
  gen.dltaPath ++ "/" ++ resourceKind gen ++ "/" ++ gen.resourceName ++ "/resource/" ++
    gen.resourceName ++ ".json"

/-- `func (gen) writeInitResourceProperties`: for non-special resources,
summarise the input attributes (top level counts as required), serialise,
trim, and write to `<name>.json` with the same force/exists/error handling
as `writeResource`.  `gen.resource` is non-nil at every call site (the
caller returns early for unregistered names), so the nil dereference of
`gen.resource.Schema` cannot fire; `getD []` keeps the model total. -/
def writeInitResourceProperties (gen : Gen) (env : FSEnv) (fs : FSState) :
    String × FSState :=
  if gen.resourceName != "terraform_azurerm" && gen.resourceName != "devops_pipeline" then
    let attributes := getAllInputAttributes (gen.resource.getD []) gen.resourceName
    let flatted := summariseAttributes attributes gen.resourceName true
    let content := writeJsonSummary flatted
    let outputPath := initOutputPath gen
    let outputDirectoryPath :=
      "/" ++ gen.dltaPath ++ "/" ++ resourceKind gen ++ "/" ++ gen.resourceName ++ "/resource/"
    let fs := fsAttempt fs outputPath
    let fs := if gen.isForced && fsExists fs outputPath then fsRemove fs outputPath else fs
    if fsExists fs outputPath then
      ("", fsPrint fs ("initResourceProperties \x223. File exists error\x22: " ++ outputPath))
    else
      let fs := if env.mkdirFails outputDirectoryPath then
          fsPrint fs "initResourceProperties \x224.1 directory error\x22" else fs
      if env.createFails outputPath then
        ("", fsPrint fs "initResourceProperties \x224. file error\x22")
      else
        ("", fsSet fs outputPath (myTrim content))
  else ("", fs)

/-- `func (gen) scaffoldConfiguation`: write the six artifacts in source
order, ignoring every result. -/
def scaffoldConfiguation (gen : Gen) (u : String) (env : FSEnv) (fs : FSState) :
    String × FSState :=
  let fs := (writeResource gen env (terraformTemplateBlock gen) .TerraformTemplate fs).2
  let fs := (writeResource gen env (terraformModuleBlock gen) .ModuleBlock fs).2
  let fs := (writeResource gen env (terraformVariableBlock gen) .VariableBlock fs).2
  let fs := (writeResource gen env (terraformLocalBlock gen) .LocalBlock fs).2
  let fs := (writeResource gen env (dltaPalletteCodeBlock gen u) .PalletteBlock fs).2
  let fs := (writeResource gen env (terraformOutputBlock gen) .OutputBlock fs).2
  ("", fs)

/-! ### The top-level pipeline -/

/-- The provider registries that `getContent` searches.  The typed and
untyped service loops of the source both match on the resource type name;
resource type names are unique across services, so the search is modelled
as one association-list lookup per kind (the `sdk` wrapping step, external
to this repository, is taken to succeed). -/
structure Registry where
  dataSources : List (String × List (String × SchemaS)) := []
  resources : List (String × List (String × SchemaS)) := []

/-- Outcome of a run: normal return, an error return, or a Go panic
(`getResourceShortCode` indexing out of range). -/
inductive RunOutcome where
  | ok
  | failed (msg : String)
  | crashed
deriving Repr, DecidableEq

/-- `func getContent`: resolve the resource (special names skip the
registries and keep a nil resource), fail for unregistered names before
touching anything, compute the short code and naming convention, then
dispatch on the output type (`init` / `scaffold` / anything else does
nothing). -/
def getContentW (resourceName : String) (isResource : Bool) (dltaPath outputType : String)
    (isForced : Bool) (reg : Registry) (saved : List (String × SummaryAttribute))
    (u : String) (env : FSEnv) (fs : FSState) : RunOutcome × FSState :=
  let gen0 : Gen :=
    { resourceName := resourceName
      isDataSource := !isResource
      dltaPath := dltaPath
      isResource := isResource
      isForced := isForced
      savedSummary := saved }
  let resolved : Option (Option (List (String × SchemaS))) :=
    if resourceName != "terraform_azurerm" && resourceName != "devops_pipeline" then
      if !isResource then (reg.dataSources.lookup resourceName).map some
      else (reg.resources.lookup resourceName).map some
    else some none
  match resolved with
  | none =>
    if !isResource then
      (.failed ("Data Source \x22" ++ resourceName ++ "\x22 was not registered!"), fs)
    else
      (.failed ("Resource \x22" ++ resourceName ++ "\x22 was not registered!"), fs)
  | some r =>
    match getResourceShortCode resourceName with
    | none => (.crashed, fs)
    | some sc =>
      let gen : Gen :=
        { gen0 with
          resource := r
          ShortCode := sc
          NamingConvention := getResourceNamingConvention resourceName (!isResource) }
      if outputType = "init" then (.ok, (writeInitResourceProperties gen env fs).2)
      else if outputType = "scaffold" then (.ok, (scaffoldConfiguation gen u env fs).2)
      else (.ok, fs)

/-- `func run`: wraps a `getContent` error in `building content: %s`. -/
def run (resourceName : String) (isResource : Bool) (dltaPath outputType : String)
    (isForced : Bool) (reg : Registry) (saved : List (String × SummaryAttribute))
    (u : String) (env : FSEnv) (fs : FSState) : RunOutcome × FSState :=
  match getContentW resourceName isResource dltaPath outputType isForced reg saved u env fs with
  | (.failed msg, fs') => (.failed ("building content: " ++ msg), fs')
  | x => x

/-! ## Theorems

General helper lemmas first, then one theorem per claim. -/

theorem strFoldl_shift (l : List String) :
    ∀ a b : String, l.foldl (fun r t => r ++ t) (a ++ b) = a ++ l.foldl (fun r t => r ++ t) b := by
  induction l with
  | nil => intro a b; rfl
  | cons x t ih =>
    intro a b
    simp only [List.foldl_cons]
    rw [String.append_assoc, ih]

theorem empty_append_str (s : String) : "" ++ s = s := by
  apply String.ext
  rw [String.data_append]
  rfl

theorem append_empty_str (s : String) : s ++ "" = s := by
  apply String.ext
  rw [String.data_append]
  exact List.append_nil _

theorem join_cons (s : String) (l : List String) :
    String.join (s :: l) = s ++ String.join l := by
  show List.foldl (fun r t => r ++ t) ("" ++ s) l = s ++ List.foldl (fun r t => r ++ t) "" l
  rw [empty_append_str]
  have := strFoldl_shift l s ""
  rw [append_empty_str] at this
  exact this

theorem joinMap_cons (f : α → String) (x : α) (l : List α) :
    joinMap f (x :: l) = f x ++ joinMap f l := by
  show String.join (f x :: l.map f) = _
  rw [join_cons]
  rfl

theorem joinMap_nil (f : α → String) : joinMap f [] = "" := rfl

theorem joinMap_append (f : α → String) (l1 l2 : List α) :
    joinMap f (l1 ++ l2) = joinMap f l1 ++ joinMap f l2 := by
  induction l1 with
  | nil => rw [List.nil_append, joinMap_nil, empty_append_str]
  | cons x t ih =>
    rw [List.cons_append, joinMap_cons, joinMap_cons, ih, String.append_assoc]

/-! ### C9: `getResourceShortCode` -/

/-- The step function of the `getResourceShortCode` fold. -/
def shortStep (parts : Nat) (acc : Option String) (iv : Nat × String) : Option String :=
  match acc with
  | none => none
  | some s =>
    if parts == 1 && iv.1 == 0 then some s
    else if iv.2.isEmpty then none
    else some (s ++ iv.2.take 1)

theorem getResourceShortCode_eq_fold (name : String) :
    getResourceShortCode name =
      (mySplitOn name '_').enum.foldl (shortStep name.length) (some "") := rfl

theorem shortFold_none (p : Nat) (l : List (Nat × String)) :
    l.foldl (shortStep p) none = none := by
  induction l with
  | nil => rfl
  | cons h t ih => simpa [shortStep] using ih

theorem shortStep_some (p : Nat) (hp : (p == 1) = false) (s : String) (iv : Nat × String)
    (hne : iv.2.isEmpty = false) :
    shortStep p (some s) iv = some (s ++ iv.2.take 1) := by
  simp [shortStep, hp, hne]

theorem shortFold_some (p : Nat) (hp : (p == 1) = false) (l : List (Nat × String)) :
    ∀ s : String, (∀ x ∈ l, x.2 ≠ "") →
      l.foldl (shortStep p) (some s) =
        some (s ++ String.join (l.map (fun x => x.2.take 1))) := by
  induction l with
  | nil => intro s _; show some s = some (s ++ "")
           rw [append_empty_str]
  | cons x t ih =>
    intro s h
    have hx : x.2 ≠ "" := h x (List.mem_cons_self x t)
    have hxe : x.2.isEmpty = false := by
      cases hie : x.2.isEmpty
      · rfl
      · exact absurd ((String.isEmpty_iff x.2).mp hie) hx
    have ht : ∀ y ∈ t, y.2 ≠ "" := fun y hy => h y (List.mem_cons_of_mem x hy)
    rw [List.foldl_cons, shortStep_some p hp s x hxe, ih (s ++ x.2.take 1) ht,
      List.map_cons, join_cons, String.append_assoc]

theorem shortFold_isSome (p : Nat) (hp : (p == 1) = false) (l : List (Nat × String)) :
    ∀ s : String, (l.foldl (shortStep p) (some s)).isSome ↔ ∀ x ∈ l, x.2 ≠ "" := by
  induction l with
  | nil => intro s; simp
  | cons x t ih =>
    intro s
    cases hxe : x.2.isEmpty
    · have hx : x.2 ≠ "" := fun h => by
        rw [h] at hxe
        exact absurd hxe (by decide)
      rw [List.foldl_cons, shortStep_some p hp s x hxe, ih (s ++ x.2.take 1)]
      constructor
      · intro h y hy
        rcases List.mem_cons.mp hy with rfl | hyt
        · exact hx
        · exact h y hyt
      · intro h y hy
        exact h y (List.mem_cons_of_mem x hy)
    · have hx : x.2 = "" := (String.isEmpty_iff x.2).mp hxe
      have hstep : shortStep p (some s) x = none := by
        simp [shortStep, hp, hxe]
      rw [List.foldl_cons, hstep, shortFold_none]
      simp only [Option.isSome_none, Bool.false_eq_true, false_iff, not_forall]
      exact ⟨x, List.mem_cons_self x t, by simp [hx]⟩

theorem forall_enum_snd {P : String → Prop} :
    ∀ (n : Nat) (l : List String),
      (∀ x ∈ List.enumFrom n l, P x.2) ↔ (∀ v ∈ l, P v) := by
  intro n l
  induction l generalizing n with
  | nil => simp
  | cons v t ih =>
    simp only [List.enumFrom, List.mem_cons, forall_eq_or_imp]
    rw [ih (n + 1)]

theorem forall_enum_snd2 {P : String → Prop} (l : List String) :
    (∀ x ∈ l.enum, P x.2) ↔ (∀ v ∈ l, P v) := by
  show (∀ x ∈ List.enumFrom 0 l, P x.2) ↔ _
  exact forall_enum_snd 0 l

theorem enum_map_take (l : List String) :
    List.map (fun x : Nat × String => x.2.take 1) l.enum = l.map (fun v => v.take 1) := by
  have h : List.map (fun x : Nat × String => x.2.take 1) l.enum =
      List.map (fun v : String => v.take 1) (l.enum.map Prod.snd) := by
    rw [List.map_map]; rfl
  rw [h, List.enum_map_snd]

/-- C9: for a resource name of byte length at least 2, `getResourceShortCode`
succeeds exactly when no underscore-separated segment is empty (an empty
segment makes the `v[0:1]` slice panic, modelled as `none`), and on success
it returns the concatenation of the first character of each segment. -/
theorem claim_C9 (name : String) (hlen : 2 ≤ name.length) :
    ((getResourceShortCode name).isSome ↔ ∀ v ∈ mySplitOn name '_', v ≠ "") ∧
      ((∀ v ∈ mySplitOn name '_', v ≠ "") →
        getResourceShortCode name =
          some (String.join ((mySplitOn name '_').map (fun v => v.take 1)))) := by
  have hne : name.length ≠ 1 := by omega
  have hp : (name.length == 1) = false := by
    cases h : name.length == 1
    · rfl
    · exact absurd (eq_of_beq h) hne
  constructor
  · rw [getResourceShortCode_eq_fold, shortFold_isSome name.length hp _ ""]
    exact @forall_enum_snd2 (fun v => v ≠ "") (mySplitOn name '_')
  · intro h
    rw [getResourceShortCode_eq_fold,
      shortFold_some name.length hp _ ""
        ((@forall_enum_snd2 (fun v => v ≠ "") (mySplitOn name '_')).mpr h),
      enum_map_take, empty_append_str]

/-- Witness for C9 at `azurerm_service_plan` (short code `asp`). -/
theorem claim_C9_witness :
    2 ≤ ("azurerm_service_plan" : String).length ∧
      getResourceShortCode "azurerm_service_plan" = some "asp" := by
  refine ⟨by decide, ?_⟩
  have h := (claim_C9 "azurerm_service_plan" (by decide)).2 (by decide)
  rw [h]
  decide

/-! ### File-system lemmas shared by C1, C3, C4 and C8 -/

theorem attempts_fsPrint (fs : FSState) (l : String) : (fsPrint fs l).attempts = fs.attempts := rfl
theorem attempts_fsRemove (fs : FSState) (p : String) : (fsRemove fs p).attempts = fs.attempts := rfl
theorem attempts_fsSet (fs : FSState) (p c : String) : (fsSet fs p c).attempts = fs.attempts := rfl
theorem attempts_fsAttempt (fs : FSState) (p : String) :
    (fsAttempt fs p).attempts = fs.attempts ++ [p] := rfl
theorem files_fsPrint (fs : FSState) (l : String) : (fsPrint fs l).files = fs.files := rfl
theorem files_fsAttempt (fs : FSState) (p : String) : (fsAttempt fs p).files = fs.files := rfl
theorem output_fsAttempt (fs : FSState) (p : String) : (fsAttempt fs p).output = fs.output := rfl
theorem output_fsRemove (fs : FSState) (p : String) : (fsRemove fs p).output = fs.output := rfl
theorem output_fsSet (fs : FSState) (p c : String) : (fsSet fs p c).output = fs.output := rfl
theorem exists_fsAttempt (fs : FSState) (p q : String) :
    fsExists (fsAttempt fs p) q = fsExists fs q := rfl

/-- `writeResource` returns the empty string in every branch. -/
theorem writeResource_fst (gen : Gen) (env : FSEnv) (s : String) (a : Artefact) (fs : FSState) :
    (writeResource gen env s a fs).1 = "" := by
  unfold writeResource
  dsimp only
  repeat' split
  all_goals rfl

/-- Every call to `writeResource` records exactly its target path in the
attempt trace, whatever the environment and state. -/
theorem writeResource_attempts (gen : Gen) (env : FSEnv) (s : String) (a : Artefact)
    (fs : FSState) :
    (writeResource gen env s a fs).2.attempts = fs.attempts ++ [writeResourcePath gen a] := by
  unfold writeResource
  dsimp only
  repeat' split
  all_goals simp [attempts_fsPrint, attempts_fsRemove, attempts_fsSet, attempts_fsAttempt]

/-- `writeInitResourceProperties` returns the empty string in every branch. -/
theorem writeInit_fst (gen : Gen) (env : FSEnv) (fs : FSState) :
    (writeInitResourceProperties gen env fs).1 = "" := by
  unfold writeInitResourceProperties
  dsimp only
  repeat' split
  all_goals rfl

theorem writeInit_attempts (gen : Gen) (env : FSEnv) (fs : FSState)
    (h1 : gen.resourceName ≠ "terraform_azurerm") (h2 : gen.resourceName ≠ "devops_pipeline") :
    (writeInitResourceProperties gen env fs).2.attempts =
      fs.attempts ++ [initOutputPath gen] := by
  have hb : ((gen.resourceName != "terraform_azurerm") &&
      (gen.resourceName != "devops_pipeline")) = true := by
    simp [bne_iff_ne, h1, h2]
  unfold writeInitResourceProperties
  dsimp only
  rw [if_pos hb]
  repeat' split
  all_goals simp [attempts_fsPrint, attempts_fsRemove, attempts_fsSet, attempts_fsAttempt]

/-- The six artifacts written by `scaffoldConfiguation`, in source order. -/
def scaffoldArtifacts : List Artefact :=
  [.TerraformTemplate, .ModuleBlock, .VariableBlock, .LocalBlock, .PalletteBlock, .OutputBlock]

theorem scaffold_attempts (gen : Gen) (u : String) (env : FSEnv) (fs : FSState) :
    (scaffoldConfiguation gen u env fs).2.attempts =
      fs.attempts ++ scaffoldArtifacts.map (writeResourcePath gen) := by
  simp [scaffoldConfiguation, writeResource_attempts, scaffoldArtifacts]

/-! ### C3: failures are printed and swallowed -/

/-- C3: whatever file-system operations fail, `writeResource` and
`writeInitResourceProperties` return the empty string; `scaffoldConfiguation`
returns the empty string and still attempts all six artifacts in order (no
error value exists to propagate — the functions' only result is `""`); and
a failing `os.Create` leaves the files untouched and appends the printed
error message to the log. -/
theorem claim_C3 (gen : Gen) (env : FSEnv) (s : String) (a : Artefact) (u : String)
    (fs : FSState) :
    (writeResource gen env s a fs).1 = "" ∧
    (writeInitResourceProperties gen env fs).1 = "" ∧
    (scaffoldConfiguation gen u env fs).1 = "" ∧
    (scaffoldConfiguation gen u env fs).2.attempts =
      fs.attempts ++ scaffoldArtifacts.map (writeResourcePath gen) ∧
    (fsExists fs (writeResourcePath gen a) = false →
      env.createFails (writeResourcePath gen a) = true →
      env.mkdirFails (writeResourceDir gen a) = false →
      (writeResource gen env s a fs).2.files = fs.files ∧
      (writeResource gen env s a fs).2.output =
        fs.output ++ ["writeResource \x224. file error\x22"]) := by
  refine ⟨writeResource_fst gen env s a fs, writeInit_fst gen env fs, rfl,
    scaffold_attempts gen u env fs, ?_⟩
  intro hne hcf hmk
  have hskip : (gen.isForced && fsExists (fsAttempt fs (writeResourcePath gen a))
      (writeResourcePath gen a)) = false := by
    rw [exists_fsAttempt, hne, Bool.and_false]
  unfold writeResource
  dsimp only
  simp only [exists_fsAttempt, hne, Bool.and_false, Bool.false_eq_true, if_false, hmk, hcf,
    if_true]
  exact ⟨rfl, rfl⟩

/-- Witness for C3 with a failing `os.Create` environment. -/
theorem claim_C3_witness :
    (writeResource { resourceName := "azurerm_x", dltaPath := "dlta" }
        { createFails := fun _ => true } "content" .TerraformTemplate {}).2.files = [] ∧
    (scaffoldConfiguation { resourceName := "azurerm_x", dltaPath := "dlta" } "u"
        { createFails := fun _ => true } {}).1 = "" := by
  have h := claim_C3 { resourceName := "azurerm_x", dltaPath := "dlta" }
    { createFails := fun _ => true } "content" .TerraformTemplate "u" {}
  exact ⟨(h.2.2.2.2 (by decide) rfl rfl).1, h.2.2.1⟩

/-! ### C4: unregistered names fail without touching the file system -/

/-- C4: a name that is neither special constant and is not registered in
the relevant registry makes `getContent` return the `was not registered!`
error, and the file-system state is returned unchanged. -/
theorem claim_C4 (name dltaPath outputType : String) (isRes forced : Bool) (reg : Registry)
    (saved : List (String × SummaryAttribute)) (u : String) (env : FSEnv) (fs : FSState)
    (h1 : name ≠ "terraform_azurerm") (h2 : name ≠ "devops_pipeline")
    (h3 : (if isRes then reg.resources.lookup name else reg.dataSources.lookup name) = none) :
    getContentW name isRes dltaPath outputType forced reg saved u env fs =
      ((if isRes then
          RunOutcome.failed ("Resource \x22" ++ name ++ "\x22 was not registered!")
        else
          RunOutcome.failed ("Data Source \x22" ++ name ++ "\x22 was not registered!")), fs) := by
  have hb : ((name != "terraform_azurerm") && (name != "devops_pipeline")) = true := by
    simp [bne_iff_ne, h1, h2]
  cases isRes with
  | true =>
    have h3' : reg.resources.lookup name = none := by simpa using h3
    simp [getContentW, hb, h3']
  | false =>
    have h3' : reg.dataSources.lookup name = none := by simpa using h3
    simp [getContentW, hb, h3']

/-- Witness for C4: an unregistered resource name on a nonempty file
system. -/
theorem claim_C4_witness :
    getContentW "azurerm_nope" true "dlta" "scaffold" false {} [] "u" {}
        { files := [("/keep", "old")] } =
      (RunOutcome.failed "Resource \x22azurerm_nope\x22 was not registered!",
        { files := [("/keep", "old")] }) := by
  have h := claim_C4 "azurerm_nope" "dlta" "scaffold" true false {} [] "u" {}
    { files := [("/keep", "old")] } (by decide) (by decide) rfl
  simpa using h

/-! ### C1: the artifacts emitted per output type -/

/-- The generator value that `getContent` builds for a resolved
non-special name. -/
def genOf (name : String) (isRes : Bool) (dltaPath : String) (forced : Bool)
    (sch : List (String × SchemaS)) (sc : String)
    (saved : List (String × SummaryAttribute)) : Gen :=
  { resourceName := name
    isDataSource := !isRes
    dltaPath := dltaPath
    isResource := isRes
    isForced := forced
    ShortCode := sc
    NamingConvention := getResourceNamingConvention name (!isRes)
    resource := some sch
    savedSummary := saved }

theorem getContentW_resolved (name dltaPath outputType : String) (isRes forced : Bool)
    (reg : Registry) (saved : List (String × SummaryAttribute)) (u : String) (env : FSEnv)
    (fs : FSState) (sch : List (String × SchemaS)) (sc : String)
    (h1 : name ≠ "terraform_azurerm") (h2 : name ≠ "devops_pipeline")
    (hsch : (if isRes then reg.resources.lookup name else reg.dataSources.lookup name)
      = some sch)
    (hsc : getResourceShortCode name = some sc) :
    getContentW name isRes dltaPath outputType forced reg saved u env fs =
      (RunOutcome.ok,
        if outputType = "init" then
          (writeInitResourceProperties (genOf name isRes dltaPath forced sch sc saved) env fs).2
        else if outputType = "scaffold" then
          (scaffoldConfiguation (genOf name isRes dltaPath forced sch sc saved) u env fs).2
        else fs) := by
  have hb : ((name != "terraform_azurerm") && (name != "devops_pipeline")) = true := by
    simp [bne_iff_ne, h1, h2]
  cases isRes with
  | true =>
    have h3' : reg.resources.lookup name = some sch := by simpa using hsch
    simp only [getContentW, hb, if_true, Bool.not_true, Bool.false_eq_true, if_false, h3',
      Option.map, hsc, genOf]
    split <;> [rfl; split <;> rfl]
  | false =>
    have h3' : reg.dataSources.lookup name = some sch := by simpa using hsch
    simp only [getContentW, hb, if_true, Bool.not_false, if_false, Bool.false_eq_true, h3',
      Option.map, hsc, genOf]
    split <;> [rfl; split <;> rfl]

/-- C1: for a resolvable non-special name, output type `scaffold` attempts
exactly the six artifact files under the dlta path (template, module main,
variables, locals, palette SQL, outputs); `init` attempts exactly the
single `<name>.json` summary; `config` leaves the state untouched. -/
theorem claim_C1 (name dltaPath : String) (isRes forced : Bool) (reg : Registry)
    (saved : List (String × SummaryAttribute)) (u : String) (env : FSEnv) (fs : FSState)
    (sch : List (String × SchemaS)) (sc : String)
    (h1 : name ≠ "terraform_azurerm") (h2 : name ≠ "devops_pipeline")
    (hsch : (if isRes then reg.resources.lookup name else reg.dataSources.lookup name)
      = some sch)
    (hsc : getResourceShortCode name = some sc) :
    ((getContentW name isRes dltaPath "scaffold" forced reg saved u env fs).1
        = RunOutcome.ok ∧
      (getContentW name isRes dltaPath "scaffold" forced reg saved u env fs).2.attempts =
        fs.attempts ++
          [ "/" ++ dltaPath ++ "/" ++ (if isRes then "r" else "d") ++ "/" ++ name ++
              "/" ++ "resource" ++ "/" ++ "template.json"
          , "/" ++ dltaPath ++ "/" ++ (if isRes then "r" else "d") ++ "/" ++ name ++
              "/" ++ "module" ++ "/" ++ "main.tf"
          , "/" ++ dltaPath ++ "/" ++ (if isRes then "r" else "d") ++ "/" ++ name ++
              "/" ++ "module" ++ "/" ++ "variables.tf"
          , "/" ++ dltaPath ++ "/" ++ (if isRes then "r" else "d") ++ "/" ++ name ++
              "/" ++ "module" ++ "/" ++ "local.tf"
          , "/" ++ dltaPath ++ "/" ++ (if isRes then "r" else "d") ++ "/" ++ name ++
              "/" ++ "resource" ++ "/" ++ "pallette.sql"
          , "/" ++ dltaPath ++ "/" ++ (if isRes then "r" else "d") ++ "/" ++ name ++
              "/" ++ "module" ++ "/" ++ "output.tf" ]) ∧
    ((getContentW name isRes dltaPath "init" forced reg saved u env fs).1
        = RunOutcome.ok ∧
      (getContentW name isRes dltaPath "init" forced reg saved u env fs).2.attempts =
        fs.attempts ++
          [ dltaPath ++ "/" ++ (if isRes then "r" else "d") ++ "/" ++ name ++ "/resource/" ++
              name ++ ".json" ]) ∧
    getContentW name isRes dltaPath "config" forced reg saved u env fs =
      (RunOutcome.ok, fs) := by
  have hsc' := getContentW_resolved name dltaPath "scaffold" isRes forced reg saved u env fs
    sch sc h1 h2 hsch hsc
  have hin := getContentW_resolved name dltaPath "init" isRes forced reg saved u env fs
    sch sc h1 h2 hsch hsc
  have hcf := getContentW_resolved name dltaPath "config" isRes forced reg saved u env fs
    sch sc h1 h2 hsch hsc
  rw [if_neg (by decide : ¬("scaffold" = "init")), if_pos rfl] at hsc'
  rw [if_pos rfl] at hin
  rw [if_neg (by decide : ¬("config" = "init")),
    if_neg (by decide : ¬("config" = "scaffold"))] at hcf
  refine ⟨⟨by rw [hsc'], ?_⟩, ⟨by rw [hin], ?_⟩, by rw [hcf]⟩
  · rw [hsc', scaffold_attempts]
    have hk : resourceKind (genOf name isRes dltaPath forced sch sc saved) =
        (if isRes then "r" else "d") := by
      cases isRes <;> rfl
    simp only [scaffoldArtifacts, List.map_cons, List.map_nil, writeResourcePath,
      artefactSubDir, artefactFileName, hk]
    simp only [genOf]
  · rw [hin, writeInit_attempts _ _ _ h1 h2]
    have hk : resourceKind (genOf name isRes dltaPath forced sch sc saved) =
        (if isRes then "r" else "d") := by
      cases isRes <;> rfl
    simp only [initOutputPath, hk]
    simp only [genOf]

/-- Witness for C1: a one-field schema registered as a resource. -/
theorem claim_C1_witness :
    (getContentW "azurerm_w" true "dlta" "config" false
        { resources := [("azurerm_w", [("location", SchemaS.mk { Required := true } .noElem)])] }
        [] "u" {} {}) = (RunOutcome.ok, {}) := by
  have h := claim_C1 "azurerm_w" "dlta" true false
    { resources := [("azurerm_w", [("location", SchemaS.mk { Required := true } .noElem)])] }
    [] "u" {} {} [("location", SchemaS.mk { Required := true } .noElem)] "aw"
    (by decide) (by decide) rfl (by decide)
  exact h.2.2

/-! ### C8: the `-force` flag -/

/-- `isForced := *force == "y"` in `main`. -/
def isForcedOf (force : String) : Bool := force == "y"

theorem lookup_filter_ne (l : List (String × String)) (p q : String) (h : q ≠ p) :
    (l.filter (fun e => e.1 != p)).lookup q = l.lookup q := by
  induction l with
  | nil => rfl
  | cons x t ih =>
    by_cases hx : x.1 = p
    · have hbn : (x.1 != p) = false := by simp [hx]
      cases x with
      | mk k v =>
        have hq : (q == k) = false := by
          simp only [beq_eq_false_iff_ne, ne_eq]
          intro he
          exact h (he.trans hx)
        simp only [List.filter_cons, hbn, Bool.false_eq_true, if_false, ih]
        simp [List.lookup, hq]
    · have : (x.1 != p) = true := by simp [hx]
      cases x with
      | mk k v =>
        simp only [List.filter_cons, this, if_true, List.lookup_cons]
        cases hq : q == k
        · simp [List.lookup, hq, ih]
        · simp [List.lookup, hq]

theorem lookup_filter_self (l : List (String × String)) (p : String) :
    (l.filter (fun e => e.1 != p)).lookup p = none := by
  induction l with
  | nil => rfl
  | cons x t ih =>
    by_cases hx : x.1 = p
    · have : (x.1 != p) = false := by simp [hx]
      simp [List.filter_cons, this, ih]
    · have h1 : (x.1 != p) = true := by simp [hx]
      cases x with
      | mk k v =>
        have h2 : (p == k) = false := by simp; exact fun he => hx (by simp_all)
        simp [List.filter_cons, h1, List.lookup, h2, ih]

theorem exists_fsRemove_self (fs : FSState) (p : String) :
    fsExists (fsRemove fs p) p = false := by
  simp [fsExists, fsRemove, lookup_filter_self]

/-- C8: with the `-force` flag different from `y` an existing target file
is left untouched and only the `File exists` message is printed; with
`-force` equal to `y` the existing file is removed and replaced with the
newly generated content (other files are untouched).  Both for
`writeResource` and for `writeInitResourceProperties`. -/
theorem claim_C8 (gen : Gen) (env : FSEnv) (s : String) (a : Artefact) (fs : FSState)
    (force : String) (hf : gen.isForced = isForcedOf force) :
    (force ≠ "y" → fsExists fs (writeResourcePath gen a) = true →
      (writeResource gen env s a fs).2.files = fs.files ∧
      (writeResource gen env s a fs).2.output = fs.output ++
        ["writeResource \x223. File exists error\x22  on path: " ++ writeResourcePath gen a]) ∧
    (force = "y" → fsExists fs (writeResourcePath gen a) = true →
      env.mkdirFails (writeResourceDir gen a) = false →
      env.createFails (writeResourcePath gen a) = false →
      (writeResource gen env s a fs).2.files.lookup (writeResourcePath gen a) = some s ∧
      (∀ q, q ≠ writeResourcePath gen a →
        (writeResource gen env s a fs).2.files.lookup q = fs.files.lookup q)) ∧
    (gen.resourceName ≠ "terraform_azurerm" → gen.resourceName ≠ "devops_pipeline" →
      force ≠ "y" → fsExists fs (initOutputPath gen) = true →
      (writeInitResourceProperties gen env fs).2.files = fs.files) ∧
    (gen.resourceName ≠ "terraform_azurerm" → gen.resourceName ≠ "devops_pipeline" →
      force = "y" → fsExists fs (initOutputPath gen) = true →
      env.mkdirFails ("/" ++ gen.dltaPath ++ "/" ++ resourceKind gen ++ "/" ++
        gen.resourceName ++ "/resource/") = false →
      env.createFails (initOutputPath gen) = false →
      (writeInitResourceProperties gen env fs).2.files.lookup (initOutputPath gen) =
        some (myTrim (writeJsonSummary (summariseAttributes
          (getAllInputAttributes (gen.resource.getD []) gen.resourceName)
          gen.resourceName true)))) := by
  refine ⟨?_, ?_, ?_, ?_⟩
  · intro hfn hex
    have hff : gen.isForced = false := by
      rw [hf]; simp [isForcedOf, hfn]
    unfold writeResource
    dsimp only
    simp only [hff, Bool.false_and, Bool.false_eq_true, if_false, exists_fsAttempt, hex,
      if_true]
    exact ⟨rfl, rfl⟩
  · intro hfy hex hmk hcf
    have hft : gen.isForced = true := by rw [hf]; simp [isForcedOf, hfy]
    unfold writeResource
    dsimp only
    simp only [hft, Bool.true_and, exists_fsAttempt, hex, if_true,
      exists_fsRemove_self, Bool.false_eq_true, if_false, hmk, hcf]
    constructor
    · show List.lookup _ ((writeResourcePath gen a, s) :: _) = some s
      simp [List.lookup]
    · intro q hq
      show List.lookup q ((writeResourcePath gen a, s) :: _) = _
      have hqb : (q == writeResourcePath gen a) = false := by simp [hq]
      simp only [List.lookup, hqb]
      show (((fsRemove (fsAttempt fs _) _).files).filter _).lookup q = _
      rw [lookup_filter_ne _ _ _ hq]
      show ((fs.files.filter _).lookup q) = _
      rw [lookup_filter_ne _ _ _ hq]
  · intro h1 h2 hfn hex
    have hff : gen.isForced = false := by rw [hf]; simp [isForcedOf, hfn]
    have hb : ((gen.resourceName != "terraform_azurerm") &&
        (gen.resourceName != "devops_pipeline")) = true := by simp [bne_iff_ne, h1, h2]
    unfold writeInitResourceProperties
    dsimp only
    simp only [hb, if_true, hff, Bool.false_and, Bool.false_eq_true, if_false,
      exists_fsAttempt, hex]
    rfl
  · intro h1 h2 hfy hex hmk hcf
    have hft : gen.isForced = true := by rw [hf]; simp [isForcedOf, hfy]
    have hb : ((gen.resourceName != "terraform_azurerm") &&
        (gen.resourceName != "devops_pipeline")) = true := by simp [bne_iff_ne, h1, h2]
    unfold writeInitResourceProperties
    dsimp only
    simp only [hb, if_true, hft, Bool.true_and, exists_fsAttempt, hex,
      exists_fsRemove_self, Bool.false_eq_true, if_false, hmk, hcf]
    show List.lookup _ ((initOutputPath gen, _) :: _) = _
    simp [List.lookup]

/-- Witness for C8: a pre-existing artifact file, unforced versus forced. -/
theorem claim_C8_witness :
    (writeResource { resourceName := "azurerm_x", dltaPath := "dlta" } {} "new"
        .TerraformTemplate
        { files := [("/dlta/r/azurerm_x/resource/template.json", "old")] }).2.files =
      [("/dlta/r/azurerm_x/resource/template.json", "old")] ∧
    (writeResource { resourceName := "azurerm_x", dltaPath := "dlta", isForced := true } {}
        "new" .TerraformTemplate
        { files := [("/dlta/r/azurerm_x/resource/template.json", "old")] }).2.files.lookup
      "/dlta/r/azurerm_x/resource/template.json" = some "new" := by
  constructor
  · exact (claim_C8 { resourceName := "azurerm_x", dltaPath := "dlta" } {} "new"
      .TerraformTemplate { files := [("/dlta/r/azurerm_x/resource/template.json", "old")] }
      "n" rfl).1 (by decide) (by decide) |>.1
  · exact (claim_C8 { resourceName := "azurerm_x", dltaPath := "dlta", isForced := true } {}
      "new" .TerraformTemplate
      { files := [("/dlta/r/azurerm_x/resource/template.json", "old")] }
      "y" rfl).2.1 rfl (by decide) rfl rfl |>.1

/-! ### C6: the structure of the palette SQL script -/

/-- Spec-side: the values row of an `insert into core.infra_asset`, with
the `guid`, `name`, `label` and `asset_type` payloads abstracted so that
the claim can state which value lands in which column. -/
def specInsertRow (guid name label assetType : String) : String :=
  "\tDEFAULT, \t\x27" ++ guid ++ "\x27, 1, \t\t\x27" ++ name ++ "\x27, \t\x27" ++
    label ++ "\x27, \t\x27\x27, \ttrue, \t\ttrue, \t\t\x27" ++ assetType ++
    "\x27,\t\t\x27none\x27, \t\tnull, \t\t\t\x27\x7b\x7d\x27, \t\t\tnull, \t\tnow(), \t\tnow(), \t\tnull, \t\t1,\t\t\t14, \tfalse, \t\t\x27\x27\t\n"

/-- Spec-side: the full INSERT statement, terminated by a semicolon. -/
def specInsertStatement (guid name label assetType : String) : String :=
  sqlInsertColumns ++ specInsertRow guid name label assetType ++ ");\n"

/-- Spec-side: an UPDATE of `core.infra_asset` that sets `form_fields` to
`formFields` and is filtered by `asset_type = assetType`, terminated by a
semicolon. -/
def specUpdateStatement (assetType formFields : String) : String :=
  "UPDATE core.infra_asset SET has_cost= false,\nform_fields = \x27" ++ formFields ++
    "\x27\nwhere asset_type = \x27" ++ assetType ++ "\x27" ++ ";"

/-- C6: the palette script is the INSERT whose `name`, `label` and
`asset_type` columns all carry the resource name, followed by the UPDATE
that sets `form_fields` to the JSON serialisation of the control list
(`writeJson(creation)`) filtered by `asset_type` equal to the resource
name; each statement ends in a semicolon by construction of the two
spec-side statements. -/
theorem claim_C6 (gen : Gen) (u : String) :
    dltaPalletteCodeBlock gen u =
      specInsertStatement u gen.resourceName gen.resourceName gen.resourceName ++
        specUpdateStatement gen.resourceName
          (writeJsonCreator (paletteCreation gen (injectAttributes gen))) := by
  show dltaPalletteCodeBlockCore gen u (injectAttributes gen) = _
  unfold dltaPalletteCodeBlockCore specInsertStatement specUpdateStatement specInsertRow
    sqlInsertValues
  simp only [String.append_assoc]

/-! ### C10: determinism of the artifacts

Two sources of per-run nondeterminism enter the artifact contents.
`dltaPalletteCodeBlock` calls `uuid.New().String()`, a fresh random UUID
per run (modelled by the argument `u`), and embeds it in the `guid` column
of the INSERT, so two runs with identical flags, schema and file-system
state differ in `pallette.sql`.  And the emitters range Go maps
(`for n, at := range attributes`), whose iteration order Go randomises per
run: a run observes some permutation of the entry list, and different
permutations change the emitted text of `variables.tf` and `output.tf`
(and likewise the other map-ranged artifacts) character for character, so
those artifacts are not deterministic in the flags and schema either. -/

/-- Everything of the palette script before the drawn uuid. -/
def paletteUuidPre : String := sqlInsertColumns ++ "\tDEFAULT, \t\x27"

/-- The values row after the `guid` column. -/
def specInsertRowTail (name label assetType : String) : String :=
  "\x27, 1, \t\t\x27" ++ name ++ "\x27, \t\x27" ++ label ++ "\x27, \t\x27\x27, \ttrue, \t\ttrue, \t\t\x27" ++
    assetType ++
    "\x27,\t\t\x27none\x27, \t\tnull, \t\t\t\x27\x7b\x7d\x27, \t\t\tnull, \t\tnow(), \t\tnow(), \t\tnull, \t\t1,\t\t\t14, \tfalse, \t\t\x27\x27\t\n"

/-- Everything of the palette script after the drawn uuid. -/
def paletteUuidPost (gen : Gen) : String :=
  specInsertRowTail gen.resourceName gen.resourceName gen.resourceName ++ ");\n" ++
    specUpdateStatement gen.resourceName
      (writeJsonCreator (paletteCreation gen (injectAttributes gen)))

/-- The registry used by the C10 counterexample runs. -/
def cexRegistry : Registry :=
  { resources := [("azurerm_w", [("location", SchemaS.mk { Required := true } .noElem)])] }

/-- C10 as stated is false: two runs of the scaffold generator with
identical flags (`-name azurerm_w -type resource -dlta-path dlta
-output-type scaffold -force n`), identical resolved schema, identical
summary file and identical (empty) initial file system write different
`pallette.sql` contents, because the INSERT embeds the run's fresh random
UUID (`uuid.New()`), here the two values drawn by the two runs. -/
theorem claim_C10_counterexample :
    (getContentW "azurerm_w" true "dlta" "scaffold" false cexRegistry []
        "11111111-1111-1111-1111-111111111111" {} {}).2.files.lookup
      ("/" ++ "dlta" ++ "/" ++ "r" ++ "/" ++ "azurerm_w" ++ "/" ++ "resource" ++ "/" ++
        "pallette.sql") ≠
    (getContentW "azurerm_w" true "dlta" "scaffold" false cexRegistry []
        "22222222-2222-2222-2222-222222222222" {} {}).2.files.lookup
      ("/" ++ "dlta" ++ "/" ++ "r" ++ "/" ++ "azurerm_w" ++ "/" ++ "resource" ++ "/" ++
        "pallette.sql") := by
  decide

/-- The generator built by `getContentW` in the counterexample runs. -/
def cexGen : Gen :=
  genOf "azurerm_w" true "dlta" false
    [("location", SchemaS.mk { Required := true } .noElem)]
    (getResourceShortCodeD "azurerm_w") []

/-- C10 amended: an artifact is a deterministic function of the flags, the
resolved schema, the drawn UUID and the per-run iteration orders of the
ranged Go maps, and the two latter inputs genuinely enter: the UUID enters
`pallette.sql` exactly once, as the `guid` column of the INSERT (first
conjunct, for every generator and every uuid), and re-ordering a ranged
map changes the emitted text, shown at the counterexample run's generator
for the injected-attribute map of `variables.tf` and the `id`/`name` map
of `output.tf` (second and third conjuncts); so two runs with identical
flags, schema and file-system state generally differ in those artifacts. -/
theorem claim_C10 :
    (∀ gen u, dltaPalletteCodeBlock gen u = paletteUuidPre ++ u ++ paletteUuidPost gen) ∧
    (∃ l, l.Perm (injectAttributes cexGen) ∧
      terraformVariableBlockCore l ≠ terraformVariableBlockCore (injectAttributes cexGen)) ∧
    (∃ l, l.Perm getAllOutputAttributes ∧
      terraformOutputBlockCore cexGen l ≠
        terraformOutputBlockCore cexGen getAllOutputAttributes) := by
  refine ⟨?_, ?_, ?_⟩
  · intro gen u
    show dltaPalletteCodeBlockCore gen u (injectAttributes gen) = _
    unfold dltaPalletteCodeBlockCore paletteUuidPre paletteUuidPost specInsertRowTail
      specUpdateStatement sqlInsertValues
    simp only [String.append_assoc]
  · exact ⟨(injectAttributes cexGen).reverse, List.reverse_perm _, by decide⟩
  · exact ⟨getAllOutputAttributes.reverse, List.reverse_perm _, by decide⟩

/-! ### C7: the hardcoded `resource_group_name` branch of the template -/

/-- C7: a non-computed, non-block `resource_group_name` attribute of a
non-special resource is emitted into the template through its hardcoded
branch — `\tresource_group_name\t\t= module.$\x7bResourceGroup\x7d.name\n` for a
resource and `\tresource_group_name\t\t= "$\x7bDataResourceGroup\x7d"\n` for a
data source — and that line differs from the generic
`<name> = "$\x7b<name>\x7d"` form a non-special field would get. -/
theorem claim_C7 (gen : Gen) (a : Attribute)
    (h1 : gen.resourceName ≠ "terraform_azurerm") (h2 : gen.resourceName ≠ "devops_pipeline")
    (hc : a.Computed = false) (hb : a.IsBlock = false)
    (hmem : ("resource_group_name", a) ∈ injectAttributes gen) :
    (∃ A B, terraformTemplateBlock gen =
      A ++ (if gen.isDataSource then
              "\tresource_group_name\t\t= \"$\x7bDataResourceGroup\x7d\"\n"
            else
              "\tresource_group_name\t\t= module.$\x7bResourceGroup\x7d.name\n") ++ B) ∧
    templateL1 gen.isDataSource "resource_group_name" a =
      (if gen.isDataSource then
        "\tresource_group_name\t\t= \"$\x7bDataResourceGroup\x7d\"\n"
      else
        "\tresource_group_name\t\t= module.$\x7bResourceGroup\x7d.name\n") ∧
    templateL1 gen.isDataSource "resource_group_name" a ≠
      templateGenericLine "resource_group_name" a := by
  have hline : templateL1 gen.isDataSource "resource_group_name" a =
      (if gen.isDataSource then
        "\tresource_group_name\t\t= \"$\x7bDataResourceGroup\x7d\"\n"
      else
        "\tresource_group_name\t\t= module.$\x7bResourceGroup\x7d.name\n") := by
    unfold templateL1 templateL1Leaf
    rw [if_neg (by decide), if_neg (by simp [hc]), if_pos (by simp [hb]), if_pos rfl]
  refine ⟨?_, hline, ?_⟩
  · obtain ⟨l1, l2, hsplit⟩ := List.append_of_mem hmem
    refine ⟨templateHeader gen (l1 ++ ("resource_group_name", a) :: l2) ++
      joinMap (fun p => templateL1 gen.isDataSource p.1 p.2) l1,
      joinMap (fun p => templateL1 gen.isDataSource p.1 p.2) l2 ++ "\x7d\n", ?_⟩
    have hbne : ((gen.resourceName != "terraform_azurerm") &&
        (gen.resourceName != "devops_pipeline")) = true := by simp [bne_iff_ne, h1, h2]
    show terraformTemplateBlockCore gen (injectAttributes gen) = _
    unfold terraformTemplateBlockCore
    rw [if_pos hbne, hsplit, joinMap_append, joinMap_cons]
    dsimp only
    rw [hline]
    simp only [String.append_assoc]
  · rw [hline]
    unfold templateGenericLine
    cases gen.isDataSource with
    | true =>
      rw [if_pos rfl]
      by_cases hdt : a.DataTypeString = "TypeList"
      · rw [if_pos hdt]; decide
      · rw [if_neg hdt]; decide
    | false =>
      rw [if_neg (by simp)]
      by_cases hdt : a.DataTypeString = "TypeList"
      · rw [if_pos hdt]; decide
      · rw [if_neg hdt]; decide

/-- A schema containing a required `resource_group_name` field, and the
generator resolved over it with that field published, for the C7 witness. -/
def c7Schema : List (String × SchemaS) :=
  [ ("resource_group_name", SchemaS.mk { Required := true } .noElem) ]

def c7Gen : Gen :=
  { resourceName := "azurerm_w"
    isDataSource := false
    dltaPath := "dlta"
    isResource := true
    ShortCode := "aw"
    resource := some c7Schema
    savedSummary := summariseAttributes (getAllInputAttributes c7Schema "azurerm_w")
      "azurerm_w" true }

/-- The attribute built for `resource_group_name` in the C7 witness. -/
def c7Attr : Attribute := buildAttr "azurerm_w" "resource_group_name"
  (SchemaS.mk { Required := true } .noElem)

/-- Witness for C7: the hardcoded line appears in the template of
`c7Gen`. -/
theorem claim_C7_witness :
    ∃ A B, terraformTemplateBlock c7Gen =
      A ++ "\tresource_group_name\t\t= module.$\x7bResourceGroup\x7d.name\n" ++ B := by
  have h := (claim_C7 c7Gen c7Attr (by decide) (by decide) rfl rfl
    (by
      have hpub : getPublishedAttributes c7Gen = [("resource_group_name", c7Attr)] := rfl
      exact List.mem_append_right _ (hpub ▸ List.Mem.head _))).1
  simpa using h

/-! ### C5: the emitters read at most three levels of the schema

`truncAttr`/`truncTo3` delete every attribute strictly below nesting depth
three (top-level field, field in a block, field in a block in a block).
The emitters producing the template, module, variable and palette blocks
are invariant under this truncation: every attribute they reflect into an
artifact sits at depth at most three, and no deeper attribute is ever
emitted. -/

mutual
/-- Keep `n+1` levels of an attribute (`truncAttr 0` keeps the node's
fields but drops its children). -/
def truncAttr : Nat → Attribute → Attribute
  | 0, .mk c _ => .mk c []
  | n + 1, .mk c ch => .mk c (truncAttrL n ch)

/-- `truncAttr` across an attribute map. -/
def truncAttrL : Nat → List (String × Attribute) → List (String × Attribute)
  | _, [] => []
  | n, (k, a) :: rest => (k, truncAttr n a) :: truncAttrL n rest
end

/-- Keep levels one to three of an attribute map. -/
def truncTo3 (attrs : List (String × Attribute)) : List (String × Attribute) :=
  truncAttrL 2 attrs

theorem truncAttr_core (n : Nat) (a : Attribute) : (truncAttr n a).core = a.core := by
  cases n <;> cases a <;> rfl

theorem attributes_mk (c : AttrCore) (ch : List (String × Attribute)) :
    (Attribute.mk c ch).Attributes = ch := rfl

theorem isBlock_mk (c : AttrCore) (ch : List (String × Attribute)) :
    (Attribute.mk c ch).IsBlock = c.IsBlock := rfl

theorem truncAttr_succ_attributes (n : Nat) (c : AttrCore) (ch : List (String × Attribute)) :
    (truncAttr (n + 1) (.mk c ch)).Attributes = truncAttrL n ch := rfl

theorem joinMap_truncL (f : String → Attribute → String) (n : Nat)
    (hf : ∀ k a, f k (truncAttr n a) = f k a) :
    ∀ ch : List (String × Attribute),
      joinMap (fun p => f p.1 p.2) (truncAttrL n ch) = joinMap (fun p => f p.1 p.2) ch := by
  intro ch
  induction ch with
  | nil => rfl
  | cons x t ih =>
    cases x with
    | mk k a =>
      show joinMap _ ((k, truncAttr n a) :: truncAttrL n t) = _
      rw [joinMap_cons, joinMap_cons]
      dsimp only
      rw [hf k a, ih]

theorem flatMapP_truncL (g : String → Attribute → List PaletteProp) (n : Nat)
    (hg : ∀ k a, g k (truncAttr n a) = g k a) :
    ∀ ch : List (String × Attribute),
      (truncAttrL n ch).flatMap (fun p => g p.1 p.2) = ch.flatMap (fun p => g p.1 p.2) := by
  intro ch
  induction ch with
  | nil => rfl
  | cons x t ih =>
    cases x with
    | mk k a =>
      have ht : truncAttrL n ((k, a) :: t) = (k, truncAttr n a) :: truncAttrL n t := rfl
      rw [ht, List.flatMap_cons, List.flatMap_cons]
      dsimp only
      rw [hg k a, ih]

theorem lookup_truncAttrL (n : Nat) (k : String) :
    ∀ l : List (String × Attribute),
      (truncAttrL n l).lookup k = (l.lookup k).map (truncAttr n) := by
  intro l
  induction l with
  | nil => rfl
  | cons x t ih =>
    cases x with
    | mk k' a =>
      show List.lookup k ((k', truncAttr n a) :: truncAttrL n t) = _
      cases hk : k == k' <;> simp [List.lookup, hk, ih]

theorem dataTypeString_truncAttr (n : Nat) (a : Attribute) :
    (truncAttr n a).DataTypeString = a.DataTypeString := by
  cases n <;> cases a <;> rfl

/-- Template: the innermost loop body reads only scalar fields. -/
theorem templateL3_trunc (k : String) (a : Attribute) :
    templateL3 k (truncAttr 0 a) = templateL3 k a := by
  cases a <;> rfl

theorem templateL2_trunc (isDS : Bool) (k : String) (a : Attribute) :
    templateL2 isDS k (truncAttr 1 a) = templateL2 isDS k a := by
  cases a with
  | mk c ch =>
    show templateL2 isDS k (.mk c (truncAttrL 0 ch)) = _
    unfold templateL2
    rw [isBlock_mk, isBlock_mk]
    cases hib : c.IsBlock
    · rfl
    · rw [if_neg (by simp), if_neg (by simp), attributes_mk, attributes_mk]
      exact joinMap_truncL templateL3 0 templateL3_trunc ch

theorem templateL1_trunc (isDS : Bool) (k : String) (a : Attribute) :
    templateL1 isDS k (truncAttr 2 a) = templateL1 isDS k a := by
  cases a with
  | mk c ch =>
    show templateL1 isDS k (.mk c (truncAttrL 1 ch)) = _
    unfold templateL1
    rw [isBlock_mk, isBlock_mk,
      show (Attribute.mk c (truncAttrL 1 ch)).Computed = c.Computed from rfl,
      show (Attribute.mk c ch).Computed = c.Computed from rfl]
    split
    · rfl
    · split
      · rfl
      · cases hib : c.IsBlock
        · rfl
        · rw [if_neg (by simp), if_neg (by simp), attributes_mk, attributes_mk]
          exact joinMap_truncL (templateL2 isDS) 1 (templateL2_trunc isDS) ch

theorem templateHeader_trunc (gen : Gen) (attrs : List (String × Attribute)) :
    templateHeader gen (truncTo3 attrs) = templateHeader gen attrs := by
  unfold templateHeader truncTo3
  rw [lookup_truncAttrL]
  cases hl : attrs.lookup "location"
  · rfl
  · rename_i v
    rw [show Option.map (truncAttr 2) (some v) = some (truncAttr 2 v) from rfl,
      show Option.map Attribute.DataTypeString (some (truncAttr 2 v)) =
        some ((truncAttr 2 v).DataTypeString) from rfl,
      show Option.map Attribute.DataTypeString (some v) = some v.DataTypeString from rfl,
      dataTypeString_truncAttr]

/-- Module block loop bodies. -/
theorem moduleL3_trunc (k : String) (a : Attribute) :
    moduleL3 k (truncAttr 0 a) = moduleL3 k a := by
  cases a <;> rfl

theorem moduleL2_trunc (k : String) (a : Attribute) :
    moduleL2 k (truncAttr 1 a) = moduleL2 k a := by
  cases a with
  | mk c ch =>
    show moduleL2 k (.mk c (truncAttrL 0 ch)) = _
    unfold moduleL2
    rw [isBlock_mk, isBlock_mk]
    cases hib : c.IsBlock
    · rfl
    · rw [if_neg (by simp), if_neg (by simp), attributes_mk, attributes_mk]
      have h := joinMap_truncL moduleL3 0 moduleL3_trunc ch
      rw [h]

theorem moduleL1Main_trunc (k : String) (a : Attribute) :
    moduleL1Main k (truncAttr 2 a) = moduleL1Main k a := by
  cases a with
  | mk c ch =>
    show moduleL1Main k (.mk c (truncAttrL 1 ch)) = _
    unfold moduleL1Main
    rw [isBlock_mk, isBlock_mk,
      show (Attribute.mk c (truncAttrL 1 ch)).Computed = c.Computed from rfl,
      show (Attribute.mk c ch).Computed = c.Computed from rfl]
    split
    · rfl
    · split
      · rfl
      · split
        · rfl
        · cases hib : c.IsBlock
          · rfl
          · rw [if_neg (by simp), if_neg (by simp), attributes_mk, attributes_mk]
            have h := joinMap_truncL moduleL2 1 moduleL2_trunc ch
            rw [h]

theorem moduleL1Append_trunc (k : String) (a : Attribute) :
    moduleL1Append k (truncAttr 2 a) = moduleL1Append k a := by
  cases a <;> rfl

/-- Variable block loop bodies. -/
theorem variableL3_trunc (d : String) (k : String) (a : Attribute) :
    variableL3 d k (truncAttr 0 a) = variableL3 d k a := by
  cases a <;> rfl

theorem variableL2_trunc (d : String) (k : String) (a : Attribute) :
    variableL2 d k (truncAttr 1 a) = variableL2 d k a := by
  cases a with
  | mk c ch =>
    show variableL2 d k (.mk c (truncAttrL 0 ch)) = _
    unfold variableL2
    rw [isBlock_mk, isBlock_mk]
    cases hib : c.IsBlock
    · rfl
    · rw [if_neg (by simp), if_neg (by simp), attributes_mk, attributes_mk]
      have h := joinMap_truncL (variableL3 d) 0 (variableL3_trunc d) ch
      rw [h]

theorem variableL1_trunc (k : String) (a : Attribute) :
    variableL1 k (truncAttr 2 a) = variableL1 k a := by
  cases a with
  | mk c ch =>
    show variableL1 k (.mk c (truncAttrL 1 ch)) = _
    unfold variableL1
    rw [isBlock_mk, isBlock_mk,
      show (Attribute.mk c (truncAttrL 1 ch)).Computed = c.Computed from rfl,
      show (Attribute.mk c ch).Computed = c.Computed from rfl,
      show (Attribute.mk c (truncAttrL 1 ch)).Default = c.Default from rfl,
      show (Attribute.mk c ch).Default = c.Default from rfl]
    split
    · rfl
    · split
      · rfl
      · split
        · rfl
        · cases hib : c.IsBlock
          · rfl
          · rw [if_neg (by simp), if_neg (by simp), attributes_mk, attributes_mk]
            exact joinMap_truncL (variableL2 c.Default) 1 (variableL2_trunc c.Default) ch

/-- Palette: `getPalletProp` reads only scalar fields of the attribute. -/
theorem getPalletProp_trunc (gen : Gen) (n : Nat) (a : Attribute) (k : String) :
    getPalletProp gen (truncAttr n a) k = getPalletProp gen a k := by
  cases n <;> cases a <;> rfl

/-- `getPalletProp` never reads the `Attributes` field. -/
theorem getPalletProp_ignores_attrs (gen : Gen) (c : AttrCore)
    (ch chx : List (String × Attribute)) (k : String) :
    getPalletProp gen (.mk c ch) k = getPalletProp gen (.mk c chx) k := rfl

theorem paletteEntry_trunc (gen : Gen) (k : String) (a : Attribute) :
    paletteEntry gen k (truncAttr 2 a) = paletteEntry gen k a := by
  cases a with
  | mk c ch =>
    show paletteEntry gen k (.mk c (truncAttrL 1 ch)) = _
    unfold paletteEntry
    rw [isBlock_mk, isBlock_mk]
    cases hib : c.IsBlock
    · rfl
    · split
      · rfl
      rw [if_pos rfl, if_pos rfl, attributes_mk, attributes_mk]
      refine flatMapP_truncL (fun k1 a1 =>
        if !a1.IsBlock then [getPalletProp gen a1 k1]
        else a1.Attributes.map fun q => getPalletProp gen q.2 q.1) 1 ?_ ch
      intro k1 a1
      cases a1 with
      | mk c1 ch1 =>
        dsimp only
        rw [show truncAttr 1 (Attribute.mk c1 ch1) =
          Attribute.mk c1 (truncAttrL 0 ch1) from rfl]
        rw [isBlock_mk, isBlock_mk]
        cases hib1 : c1.IsBlock
        · simp only [Bool.not_false, if_true]
          rw [getPalletProp_ignores_attrs gen c1 (truncAttrL 0 ch1) ch1 k1]
        · simp only [Bool.not_true, Bool.false_eq_true, if_false, attributes_mk]
          clear hib1
          induction ch1 with
          | nil => rfl
          | cons q t ih =>
            cases q with
            | mk k2 a2 =>
              show List.map _ ((k2, truncAttr 0 a2) :: truncAttrL 0 t) = _
              simp only [List.map_cons]
              rw [ih]
              have h2 : getPalletProp gen (truncAttr 0 a2) k2 = getPalletProp gen a2 k2 :=
                getPalletProp_trunc gen 0 a2 k2
              simp only [h2]

theorem paletteCreation_trunc (gen : Gen) (attrs : List (String × Attribute)) :
    paletteCreation gen (truncTo3 attrs) = paletteCreation gen attrs := by
  unfold paletteCreation truncTo3
  rw [flatMapP_truncL (paletteEntry gen) 2 (paletteEntry_trunc gen) attrs]

/-- C5: the template, module, variable and palette emitters are invariant
under deleting every attribute below nesting depth three, i.e. every
attribute reflected into one of those artifacts sits at depth at most
three and no deeper attribute is emitted. -/
theorem claim_C5 (gen : Gen) (u : String) (attrs : List (String × Attribute)) :
    terraformTemplateBlockCore gen (truncTo3 attrs) = terraformTemplateBlockCore gen attrs ∧
    terraformModuleBlockCore gen (truncTo3 attrs) = terraformModuleBlockCore gen attrs ∧
    terraformVariableBlockCore (truncTo3 attrs) = terraformVariableBlockCore attrs ∧
    dltaPalletteCodeBlockCore gen u (truncTo3 attrs) = dltaPalletteCodeBlockCore gen u attrs := by
  refine ⟨?_, ?_, ?_, ?_⟩
  · unfold terraformTemplateBlockCore
    cases hs : (gen.resourceName != "terraform_azurerm" &&
        gen.resourceName != "devops_pipeline")
    · rfl
    · rw [if_pos rfl, if_pos rfl, templateHeader_trunc]
      have h := joinMap_truncL (templateL1 gen.isDataSource) 2
        (templateL1_trunc gen.isDataSource) attrs
      unfold truncTo3
      rw [h]
  · unfold terraformModuleBlockCore truncTo3
    have h1 := joinMap_truncL moduleL1Main 2 moduleL1Main_trunc attrs
    have h2 := joinMap_truncL moduleL1Append 2 moduleL1Append_trunc attrs
    rw [h1, h2]
  · unfold terraformVariableBlockCore truncTo3
    have h := joinMap_truncL variableL1 2 variableL1_trunc attrs
    rw [h]
  · unfold dltaPalletteCodeBlockCore
    rw [paletteCreation_trunc]

/-! ### C2: the JSON property summary

The claim-side notions: `dotJoin` renders a field path as the dotted
resource path; `Reach m p s ancReq` says the schema node `s` sits at field
path `p` in the forest `m`, every proper ancestor on the path is a block
that is `Required` or `Optional` (otherwise `getAllInputAttributes` prunes
the subtree, see the counterexample), and `ancReq` records whether every
proper ancestor is `Required`; `schemaAtPath` is the plain path lookup
used by the counterexample. -/

def dotJoin : List String → String
  | [] => ""
  | [x] => x
  | x :: y :: rest => x ++ "." ++ dotJoin (y :: rest)

inductive Reach : List (String × SchemaS) → List String → SchemaS → Bool → Prop where
  | last {m : List (String × SchemaS)} {k : String} {s : SchemaS} :
      (k, s) ∈ m → Reach m [k] s true
  | step {m : List (String × SchemaS)} {k : String} {b s : SchemaS} {p : List String}
      {ancReq : Bool} :
      (k, b) ∈ m → isBlock b = true → (b.Required || b.Optional) = true →
      Reach b.children p s ancReq → Reach m (k :: p) s (b.Required && ancReq)

def schemaAtPath : List (String × SchemaS) → List String → Option SchemaS
  | _, [] => none
  | m, [f] => m.lookup f
  | m, f :: g :: rest =>
    match m.lookup f with
    | some s => schemaAtPath s.children (g :: rest)
    | none => none

theorem reach_ne_nil {m : List (String × SchemaS)} {p : List String} {s : SchemaS}
    {ancReq : Bool} (h : Reach m p s ancReq) : p ≠ [] := by
  cases h <;> simp

/-! Facts about `buildAttr` and membership in `getAllInputAttributes`. -/

theorem buildAttr_ResourcePath (pp k : String) (s : SchemaS) :
    (buildAttr pp k s).ResourcePath = pp ++ "." ++ k := by
  cases s with
  | mk c e => cases e <;> rfl

theorem buildAttr_Required (pp k : String) (s : SchemaS) :
    (buildAttr pp k s).Required = s.Required := by
  cases s with
  | mk c e => cases e <;> rfl

theorem buildAttr_IsBlock (pp k : String) (s : SchemaS) :
    (buildAttr pp k s).IsBlock = isBlock s := by
  cases s with
  | mk c e => cases e <;> rfl

theorem buildAttr_attrs_block (pp k : String) (c : SchemaCore)
    (ch : List (String × SchemaS)) :
    (buildAttr pp k (.mk c (.resourceElem ch))).Attributes =
      getAllInputAttributes ch (pp ++ "." ++ k) := rfl

theorem self_mem_insertB (le : α → α → Bool) (x : α) :
    ∀ l : List α, x ∈ insertB le x l := by
  intro l
  induction l with
  | nil => exact List.Mem.head _
  | cons y t ih =>
    unfold insertB
    split
    · exact List.Mem.head _
    · exact List.Mem.tail _ ih

theorem mem_insertB_of_mem (le : α → α → Bool) (x y : α) :
    ∀ l : List α, y ∈ l → y ∈ insertB le x l := by
  intro l hy
  induction l with
  | nil => cases hy
  | cons z t ih =>
    unfold insertB
    split
    · exact List.Mem.tail _ hy
    · rcases List.mem_cons.mp hy with rfl | ht
      · exact List.Mem.head _
      · exact List.Mem.tail _ (ih ht)

theorem mem_insSortB_of_mem (le : α → α → Bool) (y : α) :
    ∀ l : List α, y ∈ l → y ∈ insSortB le l := by
  intro l hy
  induction l with
  | nil => cases hy
  | cons x t ih =>
    unfold insSortB
    rcases List.mem_cons.mp hy with rfl | ht
    · exact self_mem_insertB le y _
    · exact mem_insertB_of_mem le x y _ (ih ht)

theorem mem_getAllInputAttributesU (pp k : String) (s : SchemaS) :
    ∀ m : List (String × SchemaS), (k, s) ∈ m → (s.Required || s.Optional) = true →
      (k, buildAttr pp k s) ∈ getAllInputAttributesU m pp := by
  intro m hmem hRO
  induction m with
  | nil => cases hmem
  | cons x t ih =>
    cases x with
    | mk k' s' =>
      show _ ∈ (if s'.Required || s'.Optional then [(k', buildAttr pp k' s')] else []) ++
        getAllInputAttributesU t pp
      rcases List.mem_cons.mp hmem with heq | ht
      · obtain ⟨rfl, rfl⟩ := Prod.mk.injEq .. |>.mp heq.symm
        rw [if_pos hRO]
        exact List.mem_append_left _ (List.Mem.head _)
      · exact List.mem_append_right _ (ih ht)

theorem mem_getAllInputAttributes (pp k : String) (s : SchemaS)
    (m : List (String × SchemaS)) (hmem : (k, s) ∈ m)
    (hRO : (s.Required || s.Optional) = true) :
    (k, buildAttr pp k s) ∈ getAllInputAttributes m pp :=
  mem_insSortB_of_mem _ _ _ (mem_getAllInputAttributesU pp k s m hmem hRO)

/-! Facts about membership in `summariseAttributes`. -/

mutual
/-- The `rn` argument of `summariseAttributes` does not influence the
result (keys come from `ResourcePath`). -/
theorem summarise_rn : ∀ (l : List (String × Attribute)) (rn rn' : String) (pr : Bool),
    summariseAttributes l rn pr = summariseAttributes l rn' pr
  | [], _, _, _ => rfl
  | (k, a) :: rest, rn, rn', pr => by
    show summariseEntry k a rn pr ++ summariseAttributes rest rn pr =
      summariseEntry k a rn' pr ++ summariseAttributes rest rn' pr
    rw [summariseEntry_rn k a rn rn' pr, summarise_rn rest rn rn' pr]

theorem summariseEntry_rn : ∀ (k : String) (a : Attribute) (rn rn' : String) (pr : Bool),
    summariseEntry k a rn pr = summariseEntry k a rn' pr
  | k, .mk c ch, rn, rn', pr => by
    unfold summariseEntry
    dsimp only
    cases c.IsBlock
    · rfl
    · rw [summarise_rn ch (rn ++ "." ++ k) (rn' ++ "." ++ k) (pr && c.Required)]
end

/-- Every entry of the attribute map contributes its own summary entry,
keyed by its resource path, with `Published = parentRequired && Required`. -/
theorem summarise_mem_self (rn : String) (pr : Bool) (k : String) (c : AttrCore)
    (ch : List (String × Attribute)) :
    ∀ l : List (String × Attribute), (k, Attribute.mk c ch) ∈ l →
      (c.ResourcePath, mkSummary (pr && c.Required) (.mk c ch)) ∈
        summariseAttributes l rn pr := by
  intro l hmem
  induction l with
  | nil => cases hmem
  | cons x t ih =>
    cases x with
    | mk k' a' =>
      show _ ∈ summariseEntry k' a' rn pr ++ summariseAttributes t rn pr
      rcases List.mem_cons.mp hmem with heq | ht
      · obtain ⟨rfl, rfl⟩ := Prod.mk.injEq .. |>.mp heq.symm
        refine List.mem_append_left _ ?_
        unfold summariseEntry
        cases c.IsBlock
        · exact List.Mem.head _
        · exact List.Mem.head _
      · exact List.mem_append_right _ (ih ht)

/-- Every summary entry of a block's children map reappears, re-wrapped,
in the summary of any map containing the block. -/
theorem summarise_mem_sub (rn rn0 : String) (pr : Bool) (k : String) (c : AttrCore)
    (ch : List (String × Attribute)) (key : String) (w : SummaryAttribute)
    (hblock : c.IsBlock = true)
    (hsub : (key, w) ∈ summariseAttributes ch rn0 (pr && c.Required)) :
    ∀ l : List (String × Attribute), (k, Attribute.mk c ch) ∈ l →
      (key, rewrap w) ∈ summariseAttributes l rn pr := by
  intro l hmem
  induction l with
  | nil => cases hmem
  | cons x t ih =>
    cases x with
    | mk k' a' =>
      show _ ∈ summariseEntry k' a' rn pr ++ summariseAttributes t rn pr
      rcases List.mem_cons.mp hmem with heq | ht
      · obtain ⟨rfl, rfl⟩ := Prod.mk.injEq .. |>.mp heq.symm
        refine List.mem_append_left _ ?_
        unfold summariseEntry
        rw [hblock]
        dsimp only
        rw [if_pos rfl]
        refine List.Mem.tail _ ?_
        rw [summarise_rn ch (rn ++ "." ++ k') rn0 (pr && c.Required)]
        exact List.mem_map_of_mem (fun p => (p.1, rewrap p.2)) hsub
      · exact List.mem_append_right _ (ih ht)

/-- The main induction for C2. -/
theorem reach_summary {m : List (String × SchemaS)} {p : List String} {s : SchemaS}
    {ancReq : Bool} (h : Reach m p s ancReq) :
    ∀ (rn : String) (pr : Bool), (s.Required || s.Optional) = true →
      ∃ w, (rn ++ "." ++ dotJoin p, w) ∈
          summariseAttributes (getAllInputAttributes m rn) rn pr ∧
        w.Published = (pr && (s.Required && ancReq)) := by
  induction h with
  | @last m1 k s1 hmem =>
    intro rn pr hRO
    have hG := mem_getAllInputAttributes rn k s1 m1 hmem hRO
    cases hB : buildAttr rn k s1 with
    | mk cB chB =>
      rw [hB] at hG
      have hrp : cB.ResourcePath = rn ++ "." ++ k := by
        have h1 := buildAttr_ResourcePath rn k s1
        rw [hB] at h1
        exact h1
      have hrq : cB.Required = s1.Required := by
        have h1 := buildAttr_Required rn k s1
        rw [hB] at h1
        exact h1
      refine ⟨mkSummary (pr && cB.Required) (.mk cB chB), ?_, ?_⟩
      · have h1 := summarise_mem_self rn pr k cB chB _ hG
        rw [hrp] at h1
        simpa [dotJoin] using h1
      · show (pr && cB.Required) = _
        rw [hrq, Bool.and_true]
  | @step m1 k b s1 p1 ancReq1 hmem hblock hbRO hsub ih =>
    intro rn pr hRO
    cases b with
    | mk cbb e =>
      cases e with
      | noElem => exact absurd hblock (by simp [isBlock])
      | schemaElem vals => exact absurd hblock (by simp [isBlock])
      | resourceElem bch =>
        have hG := mem_getAllInputAttributes rn k (.mk cbb (.resourceElem bch)) m1 hmem hbRO
        cases hB : buildAttr rn k (.mk cbb (.resourceElem bch)) with
        | mk cB chB =>
          rw [hB] at hG
          have hib : cB.IsBlock = true := by
            have h1 := buildAttr_IsBlock rn k (.mk cbb (.resourceElem bch))
            rw [hB] at h1
            rw [show (Attribute.mk cB chB).IsBlock = cB.IsBlock from rfl] at h1
            rw [h1]
            rfl
          have hrq : cB.Required = cbb.Required := by
            have h1 := buildAttr_Required rn k (.mk cbb (.resourceElem bch))
            rw [hB] at h1
            exact h1
          have hch : chB = getAllInputAttributes bch (rn ++ "." ++ k) := by
            have h1 := buildAttr_attrs_block rn k cbb bch
            rw [hB] at h1
            exact h1
          obtain ⟨w1, hw1mem, hw1pub⟩ := ih (rn ++ "." ++ k) (pr && cB.Required) hRO
          rw [show SchemaS.children (.mk cbb (.resourceElem bch)) = bch from rfl] at hw1mem
          rw [← hch] at hw1mem
          refine ⟨rewrap w1, ?_, ?_⟩
          · have hmm := summarise_mem_sub rn (rn ++ "." ++ k) pr k cB chB
              ((rn ++ "." ++ k) ++ "." ++ dotJoin p1) w1 hib hw1mem _ hG
            have hkey : (rn ++ "." ++ k) ++ "." ++ dotJoin p1 =
                rn ++ "." ++ dotJoin (k :: p1) := by
              have hp : p1 ≠ [] := reach_ne_nil hsub
              cases p1 with
              | nil => exact absurd rfl hp
              | cons q t =>
                show _ = rn ++ "." ++ (k ++ "." ++ dotJoin (q :: t))
                simp [String.append_assoc]
            rw [hkey] at hmm
            exact hmm
          · show w1.Published = _
            rw [hw1pub, hrq, show SchemaS.Required (.mk cbb (.resourceElem bch)) =
              cbb.Required from rfl]
            cases pr <;> cases cbb.Required <;> cases s1.Required <;> cases ancReq1 <;> rfl

/-- C2 (amended): every attribute of the schema that is `Required` or
`Optional` *and all of whose enclosing blocks are themselves `Required` or
`Optional`* appears in the `init` summary keyed by its resource path
(`<resourceName>.<field path>`), and its `Published` flag equals
`Required && (every enclosing block Required)`, the top level counting as
required (`summariseAttributes` is called with `parentRequired = true`).
The extra condition on the enclosing blocks is forced by
`claim_C2_counterexample`. -/
theorem claim_C2 (m : List (String × SchemaS)) (rn : String) (p : List String)
    (s : SchemaS) (ancReq : Bool) (hre : Reach m p s ancReq)
    (hRO : (s.Required || s.Optional) = true) :
    ∃ w, (rn ++ "." ++ dotJoin p, w) ∈
        summariseAttributes (getAllInputAttributes m rn) rn true ∧
      w.Published = (s.Required && ancReq) := by
  obtain ⟨w, hmem, hpub⟩ := reach_summary hre rn true hRO
  exact ⟨w, hmem, by rw [hpub, Bool.true_and]⟩

/-- The schema refuting C2 as written: a block `b` that is only `Computed`
(neither `Required` nor `Optional`) containing a `Required` field `x`. -/
def c2Schema : List (String × SchemaS) :=
  [("b", .mk { Computed := true }
    (.resourceElem [("x", .mk { Required := true } .noElem)]))]

/-- C2 as stated is false: `x` is a `Required` attribute of the schema at
path `b.x`, yet no entry keyed by its resource path `r.b.x` appears in the
summary, because `getAllInputAttributes` prunes the whole subtree of the
non-`Required`, non-`Optional` block `b`. -/
theorem claim_C2_counterexample :
    ∃ s, schemaAtPath c2Schema ["b", "x"] = some s ∧ s.Required = true ∧
      (summariseAttributes (getAllInputAttributes c2Schema "r") "r" true).lookup
        ("r" ++ "." ++ dotJoin ["b", "x"]) = none := by
  exact ⟨.mk { Required := true } .noElem, rfl, rfl, rfl⟩

/-- The schema for the C2 witness: a `Required` block holding an
`Optional` field. -/
def c2wSchema : List (String × SchemaS) :=
  [("blk", .mk { Required := true }
    (.resourceElem [("x", .mk { Optional := true } .noElem)]))]

/-- Witness for C2 (amended) on `c2wSchema`: the entry for `x` appears
keyed `azurerm_w.blk.x` and is unpublished (`x` is not `Required`). -/
theorem claim_C2_witness :
    ∃ w, ("azurerm_w" ++ "." ++ dotJoin ["blk", "x"], w) ∈
        summariseAttributes (getAllInputAttributes c2wSchema "azurerm_w") "azurerm_w" true ∧
      w.Published = ((SchemaS.mk { Optional := true } .noElem).Required && (true && true)) := by
  have hre : Reach c2wSchema ["blk", "x"] (.mk { Optional := true } .noElem)
      ((SchemaS.mk { Required := true }
        (.resourceElem [("x", .mk { Optional := true } .noElem)])).Required && true) := by
    refine Reach.step (List.Mem.head _) rfl rfl ?_
    exact Reach.last (List.Mem.head _)
  exact claim_C2 c2wSchema "azurerm_w" ["blk", "x"] _ _ hre rfl

end DltaScaffold
